import Mathlib

/-!
# liblight/lights.c : arbitration of the shared LED and the display backlight

A shallow embedding of `src/liblight/lights.c`.

* C `int` values that are only stored and compared are `Int`; the `unsigned int`
  colour is a `Nat` (every use masks it with `0x00ffffff` first, so no overflow
  can occur in the arithmetic of `rgb_to_brightness`).
* The file-level statics (`g_notification`, `g_battery`, ...) are the fields of
  `Globals`, passed explicitly.
* The operating system is the explicit state `Sysfs`: a clock counting system
  calls, the log of every `write_int` call with its return code, and two
  oracles giving the outcome of the system call issued at a given clock value.
  Quantifying over the oracles quantifies over every possible outcome of every
  write.
* `pthread_mutex_lock` / `pthread_mutex_unlock` are not modelled: the embedding
  is sequential.
-/

namespace Lights

/-! ## Constants and types of `hardware/lights.h` -/

/-- Modelled from the spec: `hardware/lights.h` is not under `src/`; flash mode
NONE of the spec's `flashMode` enum, with the value of the Android header. -/
def LIGHT_FLASH_NONE : Int := 0

/-- Modelled from the spec: `hardware/lights.h` is not under `src/`; flash mode
TIMED of the spec's `flashMode` enum, with the value of the Android header. -/
def LIGHT_FLASH_TIMED : Int := 1

/-- Modelled from the spec: `hardware/lights.h` is not under `src/`; flash mode
HARDWARE of the spec's `flashMode` enum, with the value of the Android header. -/
def LIGHT_FLASH_HARDWARE : Int := 2

/-- Modelled from the spec: `hardware/lights.h` is not under `src/`; brightness
mode USER of the spec's `brightnessMode` enum, with the value of the Android
header. -/
def BRIGHTNESS_MODE_USER : Int := 0

/-- Modelled from the spec: `hardware/lights.h` is not under `src/`; brightness
mode SENSOR of the spec's `brightnessMode` enum, with the value of the Android
header. -/
def BRIGHTNESS_MODE_SENSOR : Int := 1

/-- Modelled from the spec: `hardware/lights.h` is not under `src/`; brightness
mode LOW_PERSISTENCE of the spec's `brightnessMode` enum, with the value of the
Android header. -/
def BRIGHTNESS_MODE_LOW_PERSISTENCE : Int := 2

/-- Modelled from the spec: `struct light_state_t` of `hardware/lights.h` (not
under `src/`), the spec's LightState. `color` is the `unsigned int` colour, the
other four fields are C `int`s as `lights.c` reads them. -/
structure light_state_t where
  color : Nat
  flashMode : Int
  flashOnMS : Int
  flashOffMS : Int
  brightnessMode : Int
  deriving DecidableEq, Repr

/-- Modelled from the spec: `struct light_device_t` of `hardware/lights.h` (not
under `src/`). `lights.c` only tests a pointer to it against NULL, so a device
pointer is an `Option light_device_t` and `none` is the null handle. -/
structure light_device_t where
  tag : Nat
  version : Nat
  deriving DecidableEq, Repr

/-- The C constant `DEFAULT_LOW_PERSISTENCE_MODE_BRIGHTNESS` (lights.c:38). -/
def DEFAULT_LOW_PERSISTENCE_MODE_BRIGHTNESS : Int := 0x80

/-! ## The file-level statics -/

/-- The statics `g_notification`, `g_battery`, `g_last_backlight_mode`,
`g_attention`, `g_brightness_max` (lights.c:45-49). -/
structure Globals where
  g_notification : light_state_t
  g_battery : light_state_t
  g_last_backlight_mode : Int
  g_attention : Int
  g_brightness_max : Int
  deriving DecidableEq, Repr

/-- A zero-initialised `light_state_t`, the value of a C static without an
initialiser. -/
def light_state_zero : light_state_t :=
  { color := 0, flashMode := 0, flashOnMS := 0, flashOffMS := 0, brightnessMode := 0 }

/-- The statics as the C initialisers leave them (lights.c:45-49). -/
def Globals.initial : Globals :=
  { g_notification := light_state_zero
    g_battery := light_state_zero
    g_last_backlight_mode := BRIGHTNESS_MODE_USER
    g_attention := 0
    g_brightness_max := 0 }

/-! ## The sysfs targets -/

def LED_FILE : String := "/sys/class/leds/mx-led/brightness"

def LCD_FILE : String := "/sys/class/leds/lcd-backlight/brightness"

def LCD_FILE2 : String := "/sys/class/backlight/panel0-backlight/brightness"

def LED_BLINK_FILE : String := "/sys/class/leds/mx-led/blink"

def PERSISTENCE_FILE : String := "/sys/class/graphics/fb0/msm_fb_persist_mode"

/-! ## The operating system -/

/-- A value of `errno` after a failed system call: a positive number. -/
structure errno_t where
  val : Nat
  pos : 0 < val

/-- What the system calls inside one `write_int` call do: `open` fails, or
`open` succeeds and `write` returns -1, or neither fails. -/
inductive io_result where
  | ok
  | open_failed (errno : errno_t)
  | write_failed (errno : errno_t)

/-- One call of `write_int`: the path, the value, and the code it returned. -/
structure write_rec where
  path : String
  value : Int
  ret : Int
  deriving DecidableEq, Repr

/-- The state of the world outside `lights.c`.
`clock` counts the system-call groups issued so far (one per `write_int`, one
per `access`); `write_result` and `file_exists` say what the call issued at a
given clock value does; `log` is every `write_int` call so far, oldest first;
`ext_levels` is every level handed to the vendor primitive
`set_brightness_ext_level`; `already_warned` is the static of `write_int`. -/
structure Sysfs where
  write_result : Nat → String → Int → io_result
  file_exists : Nat → String → Bool
  clock : Nat
  log : List write_rec
  ext_levels : List Int
  already_warned : Bool

/-- The error code `-errno`, or 0, that `write_int` returns for an outcome
(lights.c:82, 88). -/
def io_result.code : io_result → Int
  | .ok => 0
  | .open_failed e => -(e.val : Int)
  | .write_failed e => -(e.val : Int)

/-- The C function `write_int` (lights.c:72-90). The `ALOGE` message is not
modelled; the static `already_warned` it guards is. -/
def write_int (path : String) (value : Int) (w : Sysfs) : Int × Sysfs :=
  match w.write_result w.clock path value with
  | .ok =>
    (0,
      { w with clock := w.clock + 1
               log := w.log ++ [{ path := path, value := value, ret := 0 }] })
  | .write_failed e =>
    (-(e.val : Int),
      { w with clock := w.clock + 1
               log := w.log ++ [{ path := path, value := value, ret := -(e.val : Int) }] })
  | .open_failed e =>
    (-(e.val : Int),
      { w with clock := w.clock + 1
               log := w.log ++ [{ path := path, value := value, ret := -(e.val : Int) }]
               already_warned := true })

/-- The libc call `access(path, F_OK)`: 0 when the file exists, -1 otherwise. -/
def access (path : String) (w : Sysfs) : Int × Sysfs :=
  (if w.file_exists w.clock path then 0 else -1, { w with clock := w.clock + 1 })

/-- Modelled from the spec: the vendor primitive `set_brightness_ext_level` is
declared in `lights_prv.h`, which is not under `src/`; the spec treats it as an
opaque external collaborator that is sent a brightness level. -/
def set_brightness_ext_level (level : Int) (w : Sysfs) : Sysfs :=
  { w with ext_levels := w.ext_levels ++ [level] }

/-! ## The translated functions -/

/-- The C function `is_lit` (lights.c:92-94). -/
def is_lit (state : light_state_t) : Int :=
  ((state.color &&& 0x00ffffff : Nat) : Int)

/-- The C function `rgb_to_brightness` (lights.c:96-101). -/
def rgb_to_brightness (state : light_state_t) : Int :=
  let color : Nat := state.color &&& 0x00ffffff
  (((77 * ((color >>> 16) &&& 0x00ff) + 150 * ((color >>> 8) &&& 0x00ff)
      + 29 * (color &&& 0x00ff)) >>> 8 : Nat) : Int)

/-- What an entry point returns: its `int` result, the statics and the world
after the call. -/
structure Outcome where
  ret : Int
  g : Globals
  sys : Sysfs

/-- The C function `set_light_backlight` (lights.c:103-139). -/
def set_light_backlight (dev : Option light_device_t) (state : light_state_t)
    (g : Globals) (w : Sysfs) : Outcome :=
  let err : Int := 0
  let brightness : Int := rgb_to_brightness state
  let lpEnabled : Int :=
    if state.brightnessMode = BRIGHTNESS_MODE_LOW_PERSISTENCE then 1 else 0
  if dev.isNone then
    { ret := -1, g := g, sys := w }
  else
    -- Toggle low persistence mode state
    let toggled : Int × Int × Sysfs :=
      if (g.g_last_backlight_mode ≠ state.brightnessMode ∧ lpEnabled ≠ 0) ∨
          (lpEnabled = 0 ∧ g.g_last_backlight_mode = BRIGHTNESS_MODE_LOW_PERSISTENCE) then
        let r := write_int PERSISTENCE_FILE lpEnabled w
        (r.1, if lpEnabled ≠ 0 then DEFAULT_LOW_PERSISTENCE_MODE_BRIGHTNESS else brightness, r.2)
      else
        (err, brightness, w)
    let err := toggled.1
    let brightness := toggled.2.1
    let w := toggled.2.2
    let g := { g with g_last_backlight_mode := state.brightnessMode }
    if err = 0 then
      let a := access LCD_FILE w
      if a.1 = 0 then
        let r := write_int LCD_FILE brightness a.2
        { ret := r.1, g := g, sys := r.2 }
      else
        let r := write_int LCD_FILE2 brightness a.2
        { ret := r.1, g := g, sys := r.2 }
    else
      { ret := err, g := g, sys := w }

/-- The C function `set_light_backlight_ext` (lights.c:141-159). -/
def set_light_backlight_ext (dev : Option light_device_t) (state : light_state_t)
    (g : Globals) (w : Sysfs) : Outcome :=
  let err : Int := 0
  if dev.isNone then
    { ret := -1, g := g, sys := w }
  else
    let brightness : Int := ((state.color &&& 0x00ffffff : Nat) : Int)
    if brightness ≥ 0 ∧ brightness ≤ g.g_brightness_max then
      { ret := err, g := g, sys := set_brightness_ext_level brightness w }
    else
      { ret := err, g := g, sys := w }

/-- The C function `set_speaker_light_locked` (lights.c:161-197). It touches no
static, so it returns its `int` result and the world only. -/
def set_speaker_light_locked (dev : Option light_device_t) (state : light_state_t)
    (w : Sysfs) : Int × Sysfs :=
  if dev.isNone then
    (-1, w)
  else
    let onMS : Int := if state.flashMode = LIGHT_FLASH_TIMED then state.flashOnMS else 0
    let offMS : Int := if state.flashMode = LIGHT_FLASH_TIMED then state.flashOffMS else 0
    let brightness : Int := rgb_to_brightness state
    let blink : Int := if onMS > 0 ∧ offMS > 0 then 1 else 0
    if blink ≠ 0 then
      let r := write_int LED_BLINK_FILE blink w
      if r.1 ≠ 0 then
        (0, (write_int LED_FILE 0 r.2).2)
      else
        (0, r.2)
    else
      (0, (write_int LED_FILE brightness w).2)

/-- The C function `handle_speaker_battery_locked` (lights.c:199-205); it is
`void`, the result of `set_speaker_light_locked` is dropped. -/
def handle_speaker_battery_locked (dev : Option light_device_t) (g : Globals)
    (w : Sysfs) : Sysfs :=
  if is_lit g.g_battery ≠ 0 then
    (set_speaker_light_locked dev g.g_battery w).2
  else
    (set_speaker_light_locked dev g.g_notification w).2

/-- The C function `set_light_battery` (lights.c:207-214). -/
def set_light_battery (dev : Option light_device_t) (state : light_state_t)
    (g : Globals) (w : Sysfs) : Outcome :=
  let g := { g with g_battery := state }
  { ret := 0, g := g, sys := handle_speaker_battery_locked dev g w }

/-- The C function `set_light_notifications` (lights.c:216-223). -/
def set_light_notifications (dev : Option light_device_t) (state : light_state_t)
    (g : Globals) (w : Sysfs) : Outcome :=
  let g := { g with g_notification := state }
  { ret := 0, g := g, sys := handle_speaker_battery_locked dev g w }

/-- The C function `set_light_attention` (lights.c:225-236). -/
def set_light_attention (dev : Option light_device_t) (state : light_state_t)
    (g : Globals) (w : Sysfs) : Outcome :=
  let g :=
    if state.flashMode = LIGHT_FLASH_HARDWARE then
      { g with g_attention := state.flashOnMS }
    else if state.flashMode = LIGHT_FLASH_NONE then
      { g with g_attention := 0 }
    else g
  { ret := 0, g := g, sys := handle_speaker_battery_locked dev g w }

/-! ## Observations used by the statements -/

/-- The `write_int` calls made between world `w` and the later world `w'`. -/
def new_writes (w w' : Sysfs) : List write_rec :=
  w'.log.drop w.log.length

/-- The values written to `path` among the calls `l`, in order. -/
def values_to (path : String) (l : List write_rec) : List Int :=
  (l.filter (fun r => r.path = path)).map (fun r => r.value)

/-- The winner as the spec words it: the battery state when its colour has a
nonzero RGB component, the notification state otherwise. -/
def spec_winner (g : Globals) : light_state_t :=
  if g.g_battery.color &&& 0x00ffffff ≠ 0 then g.g_battery else g.g_notification

/-- The blink condition as the spec words it: timed flash mode with both
durations positive. -/
def spec_blink (state : light_state_t) : Prop :=
  state.flashMode = LIGHT_FLASH_TIMED ∧ state.flashOnMS > 0 ∧ state.flashOffMS > 0

instance (state : light_state_t) : Decidable (spec_blink state) := by
  unfold spec_blink; infer_instance

/-- The mode-flag trigger as the spec words it: low persistence is requested
and the last mode differs from the requested one, or low persistence is not
requested and the last mode is LOW_PERSISTENCE. -/
def spec_flag_trigger (last mode : Int) : Prop :=
  (last ≠ mode ∧ mode = BRIGHTNESS_MODE_LOW_PERSISTENCE) ∨
    (mode ≠ BRIGHTNESS_MODE_LOW_PERSISTENCE ∧ last = BRIGHTNESS_MODE_LOW_PERSISTENCE)

instance (last mode : Int) : Decidable (spec_flag_trigger last mode) := by
  unfold spec_flag_trigger; infer_instance

/-- The value `lpEnabled` that `set_light_backlight` writes to the mode-flag
file for a requested mode. -/
def lp_flag (mode : Int) : Int :=
  if mode = BRIGHTNESS_MODE_LOW_PERSISTENCE then 1 else 0

/-- The backlight file `set_light_backlight` writes to: the primary path when
`access` finds it, the fallback path otherwise. -/
def lcd_path (primary_exists : Bool) : String :=
  if primary_exists then LCD_FILE else LCD_FILE2

/-- A caller issuing the direct-path backlight updates `states` one after the
other, oldest first. -/
def run_backlight (dev : Option light_device_t) :
    List light_state_t → Globals → Sysfs → Globals × Sysfs
  | [], g, w => (g, w)
  | s :: rest, g, w =>
    run_backlight dev rest (set_light_backlight dev s g w).g (set_light_backlight dev s g w).sys

/-- The number of consecutive pairs in `last :: modes` of which exactly one is
LOW_PERSISTENCE, as the spec counts mode changes across the low-persistence
boundary. -/
def lp_crossings : Int → List Int → Nat
  | _, [] => 0
  | last, m :: rest =>
    (if (last = BRIGHTNESS_MODE_LOW_PERSISTENCE ∧ m ≠ BRIGHTNESS_MODE_LOW_PERSISTENCE) ∨
        (last ≠ BRIGHTNESS_MODE_LOW_PERSISTENCE ∧ m = BRIGHTNESS_MODE_LOW_PERSISTENCE)
      then 1 else 0) + lp_crossings m rest

/-- The flag values the spec expects for the requested `modes` after `last`: 1
for each entry into low persistence, 0 for each exit, nothing otherwise. -/
def lp_flag_values : Int → List Int → List Int
  | _, [] => []
  | last, m :: rest =>
    (if last ≠ BRIGHTNESS_MODE_LOW_PERSISTENCE ∧ m = BRIGHTNESS_MODE_LOW_PERSISTENCE then [1]
      else if last = BRIGHTNESS_MODE_LOW_PERSISTENCE ∧ m ≠ BRIGHTNESS_MODE_LOW_PERSISTENCE then [0]
      else []) ++ lp_flag_values m rest

/-- The red component as the spec words it: bits 16-23 of the colour. -/
def spec_red (color : Nat) : Nat := color / 2 ^ 16 % 2 ^ 8

/-- The green component as the spec words it: bits 8-15 of the colour. -/
def spec_green (color : Nat) : Nat := color / 2 ^ 8 % 2 ^ 8

/-- The blue component as the spec words it: bits 0-7 of the colour. -/
def spec_blue (color : Nat) : Nat := color % 2 ^ 8

/-- The weighted sum `77*R + 150*G + 29*B` of the spec's luma weighting. -/
def spec_luma (color : Nat) : Nat :=
  77 * spec_red color + 150 * spec_green color + 29 * spec_blue color

/-- The brightness as the spec words it: `floor((77*R + 150*G + 29*B) / 256)`. -/
def toBrightness (color : Nat) : Int := ((spec_luma color / 256 : Nat) : Int)

/-- The level the spec says the extended backlight update sends: the low 24
bits of the colour clamped to the configured maximum,
`min(color & 0x00FFFFFF, brightnessMax)`. -/
def spec_ext_level (color : Nat) (brightnessMax : Int) : Int :=
  min ((color % 2 ^ 24 : Nat) : Int) brightnessMax

/-! ## Concrete worlds and inputs used by the examples -/

/-- The errno value EACCES. -/
def EACCES : errno_t := ⟨13, by decide⟩

/-- A world in which every write succeeds and every file exists. -/
def world_ok : Sysfs :=
  { write_result := fun _ _ _ => io_result.ok
    file_exists := fun _ _ => true
    clock := 0
    log := []
    ext_levels := []
    already_warned := false }

/-- A world in which every `write` fails with EACCES and every file exists. -/
def world_eacces : Sysfs :=
  { write_result := fun _ _ _ => io_result.write_failed EACCES
    file_exists := fun _ _ => true
    clock := 0
    log := []
    ext_levels := []
    already_warned := false }

/-- A device as `open_lights` fills it in. -/
def dev0 : light_device_t := { tag := 1, version := 2 }

/-! ## Facts about the operating-system model -/

theorem io_result.code_nonpos (r : io_result) : r.code ≤ 0 := by
  cases r with
  | ok => simp [io_result.code]
  | open_failed e => simp [io_result.code]
  | write_failed e => simp [io_result.code]

theorem io_result.code_eq_zero_iff (r : io_result) : r.code = 0 ↔ r = io_result.ok := by
  cases r with
  | ok => simp [io_result.code]
  | open_failed e =>
    have := e.pos
    simp [io_result.code]; omega
  | write_failed e =>
    have := e.pos
    simp [io_result.code]; omega

theorem write_int_ret (p : String) (v : Int) (w : Sysfs) :
    (write_int p v w).1 = (w.write_result w.clock p v).code := by
  unfold write_int
  cases w.write_result w.clock p v <;> simp [io_result.code]

theorem write_int_log (p : String) (v : Int) (w : Sysfs) :
    (write_int p v w).2.log
      = w.log ++ [{ path := p, value := v, ret := (w.write_result w.clock p v).code }] := by
  unfold write_int
  cases w.write_result w.clock p v <;> simp [io_result.code]

theorem write_int_clock (p : String) (v : Int) (w : Sysfs) :
    (write_int p v w).2.clock = w.clock + 1 := by
  unfold write_int
  cases w.write_result w.clock p v <;> simp

theorem write_int_write_result (p : String) (v : Int) (w : Sysfs) :
    (write_int p v w).2.write_result = w.write_result := by
  unfold write_int
  cases w.write_result w.clock p v <;> simp

theorem write_int_file_exists (p : String) (v : Int) (w : Sysfs) :
    (write_int p v w).2.file_exists = w.file_exists := by
  unfold write_int
  cases w.write_result w.clock p v <;> simp

theorem write_int_ext_levels (p : String) (v : Int) (w : Sysfs) :
    (write_int p v w).2.ext_levels = w.ext_levels := by
  unfold write_int
  cases w.write_result w.clock p v <;> simp

theorem new_writes_of_log {w w' : Sysfs} {l : List write_rec} (h : w'.log = w.log ++ l) :
    new_writes w w' = l := by
  simp [new_writes, h]

theorem new_writes_self (w : Sysfs) : new_writes w w = [] := by
  simp [new_writes]

/-- The blink test of `set_speaker_light_locked` is the spec's blink condition. -/
theorem blink_test_iff (state : light_state_t) :
    ((if state.flashMode = LIGHT_FLASH_TIMED then state.flashOnMS else 0) > 0 ∧
      (if state.flashMode = LIGHT_FLASH_TIMED then state.flashOffMS else 0) > 0)
      ↔ spec_blink state := by
  unfold spec_blink
  by_cases h : state.flashMode = LIGHT_FLASH_TIMED <;> simp [h]

/-- Every write `set_speaker_light_locked` makes with a valid handle. -/
theorem resolver_log (d : light_device_t) (state : light_state_t) (w : Sysfs) :
    (set_speaker_light_locked (some d) state w).2.log = w.log ++
      (if spec_blink state then
        if (w.write_result w.clock LED_BLINK_FILE 1).code ≠ 0 then
          [{ path := LED_BLINK_FILE, value := 1,
             ret := (w.write_result w.clock LED_BLINK_FILE 1).code },
           { path := LED_FILE, value := 0,
             ret := (w.write_result (w.clock + 1) LED_FILE 0).code }]
        else
          [{ path := LED_BLINK_FILE, value := 1, ret := 0 }]
      else
        [{ path := LED_FILE, value := rgb_to_brightness state,
           ret := (w.write_result w.clock LED_FILE (rgb_to_brightness state)).code }]) := by
  unfold set_speaker_light_locked
  simp only [blink_test_iff]
  by_cases hb : spec_blink state
  · by_cases hc : (w.write_result w.clock LED_BLINK_FILE 1).code = 0
    · simp [hb, hc, write_int_ret, write_int_log]
    · simp [hb, hc, write_int_ret, write_int_log, write_int_clock, write_int_write_result]
  · simp [hb, write_int_log]

theorem is_lit_ne_zero_iff (state : light_state_t) :
    is_lit state ≠ 0 ↔ state.color &&& 0x00ffffff ≠ 0 := by
  simp [is_lit]

/-- `handle_speaker_battery_locked` hands the spec's winner to the resolver. -/
theorem handle_eq_resolver_on_winner (dev : Option light_device_t) (g : Globals) (w : Sysfs) :
    handle_speaker_battery_locked dev g w
      = (set_speaker_light_locked dev (spec_winner g) w).2 := by
  unfold handle_speaker_battery_locked spec_winner
  by_cases h : g.g_battery.color &&& 0x00ffffff = 0
  · simp [is_lit, h]
  · simp [is_lit, h]

/-! ## The claims -/

/-- C1: with a valid handle, every battery, notification or attention update
hands to the flash-mode resolver `set_speaker_light_locked` the stored battery
state when `battery.color & 0x00FFFFFF` is nonzero and the stored notification
state otherwise (the registry being the one after the update has stored its
argument); consequently, when the battery is lit, the world after the update,
and with it the hardware writes, is the same for every notification state. -/
theorem C1_winner_is_battery_iff_lit (d : light_device_t) (state : light_state_t)
    (g : Globals) (w : Sysfs) :
    (g.g_battery.color &&& 0x00ffffff ≠ 0 → spec_winner g = g.g_battery)
    ∧ (¬ (g.g_battery.color &&& 0x00ffffff ≠ 0) → spec_winner g = g.g_notification)
    ∧ handle_speaker_battery_locked (some d) g w
        = (set_speaker_light_locked (some d) (spec_winner g) w).2
    ∧ (set_light_battery (some d) state g w).sys
        = (set_speaker_light_locked (some d)
            (spec_winner (set_light_battery (some d) state g w).g) w).2
    ∧ (set_light_battery (some d) state g w).g.g_battery = state
    ∧ (set_light_battery (some d) state g w).g.g_notification = g.g_notification
    ∧ (set_light_notifications (some d) state g w).sys
        = (set_speaker_light_locked (some d)
            (spec_winner (set_light_notifications (some d) state g w).g) w).2
    ∧ (set_light_notifications (some d) state g w).g.g_battery = g.g_battery
    ∧ (set_light_notifications (some d) state g w).g.g_notification = state
    ∧ (set_light_attention (some d) state g w).sys
        = (set_speaker_light_locked (some d) (spec_winner g) w).2
    ∧ (g.g_battery.color &&& 0x00ffffff ≠ 0 → ∀ n₁ n₂ : light_state_t,
        (set_light_notifications (some d) n₁ g w).sys
            = (set_light_notifications (some d) n₂ g w).sys
        ∧ (set_light_attention (some d) state { g with g_notification := n₁ } w).sys
            = (set_light_attention (some d) state { g with g_notification := n₂ } w).sys
        ∧ new_writes w (set_light_notifications (some d) n₁ g w).sys
            = new_writes w (set_light_notifications (some d) n₂ g w).sys
        ∧ new_writes w (set_light_attention (some d) state { g with g_notification := n₁ } w).sys
            = new_writes w
                (set_light_attention (some d) state { g with g_notification := n₂ } w).sys)
    ∧ (state.color &&& 0x00ffffff ≠ 0 → ∀ n₁ n₂ : light_state_t,
        (set_light_battery (some d) state { g with g_notification := n₁ } w).sys
            = (set_light_battery (some d) state { g with g_notification := n₂ } w).sys
        ∧ new_writes w (set_light_battery (some d) state { g with g_notification := n₁ } w).sys
            = new_writes w
                (set_light_battery (some d) state { g with g_notification := n₂ } w).sys) := by
  have hatt : ∀ g : Globals, (set_light_attention (some d) state g w).sys
      = (set_speaker_light_locked (some d) (spec_winner g) w).2 := by
    intro g
    simp only [set_light_attention, handle_eq_resolver_on_winner]
    split_ifs <;> rfl
  refine ⟨?_, ?_, handle_eq_resolver_on_winner _ g w, ?_, rfl, rfl, ?_, rfl, rfl, hatt g, ?_, ?_⟩
  · intro h; simp [spec_winner, h]
  · intro h; simp [spec_winner, h]
  · simp [set_light_battery, handle_eq_resolver_on_winner]
  · simp [set_light_notifications, handle_eq_resolver_on_winner]
  · intro h n₁ n₂
    have e₁ : (set_light_notifications (some d) n₁ g w).sys
        = (set_light_notifications (some d) n₂ g w).sys := by
      simp [set_light_notifications, handle_eq_resolver_on_winner, spec_winner, h]
    have e₂ : (set_light_attention (some d) state { g with g_notification := n₁ } w).sys
        = (set_light_attention (some d) state { g with g_notification := n₂ } w).sys := by
      rw [hatt, hatt]; simp [spec_winner, h]
    exact ⟨e₁, e₂, by rw [e₁], by rw [e₂]⟩
  · intro h n₁ n₂
    have e₁ : (set_light_battery (some d) state { g with g_notification := n₁ } w).sys
        = (set_light_battery (some d) state { g with g_notification := n₂ } w).sys := by
      simp [set_light_battery, handle_eq_resolver_on_winner, spec_winner, h]
    exact ⟨e₁, by rw [e₁]⟩

/-- C1 at a concrete input: the battery is red (lit); a green steady
notification and a blue blinking one both leave the LED at the battery's level
76. -/
theorem C1_winner_is_battery_iff_lit_witness :
    ((0xFF0000 : Nat) &&& 0x00ffffff ≠ 0)
    ∧ new_writes world_ok
        (set_light_notifications (some dev0)
          { color := 0x00FF00, flashMode := 0, flashOnMS := 0, flashOffMS := 0,
            brightnessMode := 0 }
          { Globals.initial with
            g_battery := { color := 0xFF0000, flashMode := 0, flashOnMS := 0, flashOffMS := 0,
                           brightnessMode := 0 } }
          world_ok).sys
      = new_writes world_ok
        (set_light_notifications (some dev0)
          { color := 0x0000FF, flashMode := 1, flashOnMS := 500, flashOffMS := 500,
            brightnessMode := 0 }
          { Globals.initial with
            g_battery := { color := 0xFF0000, flashMode := 0, flashOnMS := 0, flashOffMS := 0,
                           brightnessMode := 0 } }
          world_ok).sys :=
  ⟨by decide,
    ((C1_winner_is_battery_iff_lit dev0 light_state_zero
      { Globals.initial with
        g_battery := { color := 0xFF0000, flashMode := 0, flashOnMS := 0, flashOffMS := 0,
                       brightnessMode := 0 } }
      world_ok).2.2.2.2.2.2.2.2.2.2.1 (by decide)
      { color := 0x00FF00, flashMode := 0, flashOnMS := 0, flashOffMS := 0, brightnessMode := 0 }
      { color := 0x0000FF, flashMode := 1, flashOnMS := 500, flashOffMS := 500,
        brightnessMode := 0 }).2.2.1⟩


/-- C2: for every winning state whose blink condition is false (flash mode not
TIMED, or `flashOnMS <= 0`, or `flashOffMS <= 0`) the resolver makes exactly one
`write_int` call, of `rgb_to_brightness state` to the LED level file, and none
to the blink file. With the battery unlit, a notification update of colour
0x00FF00 and flash mode NONE makes the single write of level 149. -/
theorem C2_steady_single_level_write (d : light_device_t) (state : light_state_t)
    (w : Sysfs)
    (h : state.flashMode ≠ LIGHT_FLASH_TIMED ∨ state.flashOnMS ≤ 0 ∨ state.flashOffMS ≤ 0) :
    new_writes w (set_speaker_light_locked (some d) state w).2
        = [{ path := LED_FILE, value := rgb_to_brightness state,
             ret := (w.write_result w.clock LED_FILE (rgb_to_brightness state)).code }]
    ∧ (new_writes w (set_speaker_light_locked (some d) state w).2).length = 1
    ∧ values_to LED_FILE (new_writes w (set_speaker_light_locked (some d) state w).2)
        = [rgb_to_brightness state]
    ∧ values_to LED_BLINK_FILE (new_writes w (set_speaker_light_locked (some d) state w).2) = []
    ∧ (∀ (g : Globals) (onMS offMS mode : Int), g.g_battery.color &&& 0x00ffffff = 0 →
        new_writes w
          (set_light_notifications (some d)
            { color := 0x00FF00, flashMode := LIGHT_FLASH_NONE, flashOnMS := onMS,
              flashOffMS := offMS, brightnessMode := mode } g w).sys
          = [{ path := LED_FILE, value := 149,
               ret := (w.write_result w.clock LED_FILE 149).code }]) := by
  have hnb : ¬ spec_blink state := by
    unfold spec_blink
    rcases h with h | h | h
    · exact fun hb => h hb.1
    · exact fun hb => absurd hb.2.1 (by omega)
    · exact fun hb => absurd hb.2.2 (by omega)
  have hw := new_writes_of_log (resolver_log d state w)
  rw [if_neg hnb] at hw
  refine ⟨hw, by rw [hw]; rfl, ?_, ?_, ?_⟩
  · rw [hw]; simp [values_to]
  · rw [hw]
    have : LED_FILE ≠ LED_BLINK_FILE := by decide
    simp [values_to, this]
  · intro g onMS offMS mode hg
    have hs : (set_light_notifications (some d)
        { color := 0x00FF00, flashMode := LIGHT_FLASH_NONE, flashOnMS := onMS,
          flashOffMS := offMS, brightnessMode := mode } g w).sys
        = (set_speaker_light_locked (some d)
            { color := 0x00FF00, flashMode := LIGHT_FLASH_NONE, flashOnMS := onMS,
              flashOffMS := offMS, brightnessMode := mode } w).2 := by
      simp [set_light_notifications, handle_eq_resolver_on_winner, spec_winner, hg]
    rw [hs]
    refine (new_writes_of_log (resolver_log d _ w)).trans ?_
    have hv : ∀ a b c : Int, rgb_to_brightness
        { color := 0x00FF00, flashMode := LIGHT_FLASH_NONE, flashOnMS := a, flashOffMS := b,
          brightnessMode := c } = 149 := by
      intro a b c
      simp only [rgb_to_brightness]
      decide
    rw [if_neg (fun hb => absurd hb.1 (by simp [LIGHT_FLASH_NONE, LIGHT_FLASH_TIMED])), hv]

/-- C2 at concrete inputs: a TIMED state whose off-duration is 0 does not blink,
and in a world where every write succeeds its only write is level 149 to the
LED level file; with the initial (unlit) battery state a notification update of
colour 0x00FF00 and flash mode NONE makes the same single write. -/
theorem C2_steady_single_level_write_witness :
    ((1 : Int) ≠ LIGHT_FLASH_TIMED ∨ (500 : Int) ≤ 0 ∨ (0 : Int) ≤ 0)
    ∧ new_writes world_ok
        (set_speaker_light_locked (some dev0)
          { color := 0x00FF00, flashMode := 1, flashOnMS := 500, flashOffMS := 0,
            brightnessMode := 0 } world_ok).2
      = [{ path := LED_FILE, value := 149, ret := 0 }]
    ∧ Globals.initial.g_battery.color &&& 0x00ffffff = 0
    ∧ new_writes world_ok
        (set_light_notifications (some dev0)
          { color := 0x00FF00, flashMode := LIGHT_FLASH_NONE, flashOnMS := 0, flashOffMS := 0,
            brightnessMode := 0 } Globals.initial world_ok).sys
      = [{ path := LED_FILE, value := 149, ret := 0 }] :=
  ⟨by decide,
    (C2_steady_single_level_write dev0
      { color := 0x00FF00, flashMode := 1, flashOnMS := 500, flashOffMS := 0,
        brightnessMode := 0 } world_ok (by decide)).1,
    by decide,
    (C2_steady_single_level_write dev0
      { color := 0x00FF00, flashMode := 1, flashOnMS := 500, flashOffMS := 0,
        brightnessMode := 0 } world_ok (by decide)).2.2.2.2 Globals.initial 0 0 0 (by decide)⟩

/-- C3: the resolver writes to the blink file exactly for the winning states
with flash mode TIMED and both durations positive; for such a state it writes 1
to the blink file; when that write succeeds it is the only write, and when it
fails the only further write is level 0 to the LED level file, so every value
written to the LED level file in the blink case is 0. -/
theorem C3_blink_write_and_fallback (d : light_device_t) (state : light_state_t)
    (w : Sysfs) :
    (values_to LED_BLINK_FILE (new_writes w (set_speaker_light_locked (some d) state w).2) ≠ []
        ↔ (state.flashMode = LIGHT_FLASH_TIMED ∧ state.flashOnMS > 0 ∧ state.flashOffMS > 0))
    ∧ ((state.flashMode = LIGHT_FLASH_TIMED ∧ state.flashOnMS > 0 ∧ state.flashOffMS > 0) →
        values_to LED_BLINK_FILE (new_writes w (set_speaker_light_locked (some d) state w).2)
          = [1]
        ∧ (w.write_result w.clock LED_BLINK_FILE 1 = io_result.ok →
            new_writes w (set_speaker_light_locked (some d) state w).2
              = [{ path := LED_BLINK_FILE, value := 1, ret := 0 }])
        ∧ (w.write_result w.clock LED_BLINK_FILE 1 ≠ io_result.ok →
            new_writes w (set_speaker_light_locked (some d) state w).2
              = [{ path := LED_BLINK_FILE, value := 1,
                   ret := (w.write_result w.clock LED_BLINK_FILE 1).code },
                 { path := LED_FILE, value := 0,
                   ret := (w.write_result (w.clock + 1) LED_FILE 0).code }])
        ∧ (∀ v ∈ values_to LED_FILE
              (new_writes w (set_speaker_light_locked (some d) state w).2), v = 0)) := by
  have hw := new_writes_of_log (resolver_log d state w)
  have hne : LED_FILE ≠ LED_BLINK_FILE := by decide
  have hne' : LED_BLINK_FILE ≠ LED_FILE := by decide
  constructor
  · rw [hw]
    change _ ↔ spec_blink state
    by_cases hb : spec_blink state
    · by_cases hc : (w.write_result w.clock LED_BLINK_FILE 1).code = 0
      · simp [hb, hc, values_to]
      · simp [hb, hc, values_to, hne]
    · simp [hb, values_to, hne]
  · intro hb
    have hb' : spec_blink state := hb
    rw [if_pos hb'] at hw
    by_cases hc : (w.write_result w.clock LED_BLINK_FILE 1).code = 0
    · have hok := (io_result.code_eq_zero_iff _).1 hc
      rw [if_neg (not_not.mpr hc)] at hw
      rw [hw]
      simp [hok, values_to, hne']
    · have hok : w.write_result w.clock LED_BLINK_FILE 1 ≠ io_result.ok :=
        fun h => hc ((io_result.code_eq_zero_iff _).2 h)
      rw [if_pos hc] at hw
      rw [hw]
      simp [hok, values_to, hne, hne']

/-- C3 at the spec's input (TIMED, 500 ms on, 500 ms off): when every write
fails with EACCES the writes are 1 to the blink file, then level 0 to the LED
level file. -/
theorem C3_blink_write_and_fallback_witness :
    ((1 : Int) = LIGHT_FLASH_TIMED ∧ (500 : Int) > 0 ∧ (500 : Int) > 0)
    ∧ world_eacces.write_result world_eacces.clock LED_BLINK_FILE 1 ≠ io_result.ok
    ∧ new_writes world_eacces
        (set_speaker_light_locked (some dev0)
          { color := 0x00FF00, flashMode := 1, flashOnMS := 500, flashOffMS := 500,
            brightnessMode := 0 } world_eacces).2
      = [{ path := LED_BLINK_FILE, value := 1, ret := -13 },
         { path := LED_FILE, value := 0, ret := -13 }] :=
  ⟨by decide, by simp [world_eacces],
    ((C3_blink_write_and_fallback dev0
      { color := 0x00FF00, flashMode := 1, flashOnMS := 500, flashOffMS := 500,
        brightnessMode := 0 } world_eacces).2 (by decide)).2.2.1 (by simp [world_eacces])⟩


/-! ## The direct backlight path -/

theorem access_log (p : String) (w : Sysfs) : (access p w).2.log = w.log := rfl

/-- The trigger test of `set_light_backlight` is the spec's trigger. -/
theorem flag_test_iff (last mode : Int) :
    ((last ≠ mode ∧ (if mode = BRIGHTNESS_MODE_LOW_PERSISTENCE then (1 : Int) else 0) ≠ 0) ∨
      ((if mode = BRIGHTNESS_MODE_LOW_PERSISTENCE then (1 : Int) else 0) = 0 ∧
        last = BRIGHTNESS_MODE_LOW_PERSISTENCE))
      ↔ spec_flag_trigger last mode := by
  unfold spec_flag_trigger
  by_cases h : mode = BRIGHTNESS_MODE_LOW_PERSISTENCE <;> simp [h]

/-- The spec's trigger says that exactly one of the two modes is
LOW_PERSISTENCE. -/
theorem spec_flag_trigger_iff (last mode : Int) :
    spec_flag_trigger last mode ↔
      ((last = BRIGHTNESS_MODE_LOW_PERSISTENCE ∧ mode ≠ BRIGHTNESS_MODE_LOW_PERSISTENCE) ∨
        (last ≠ BRIGHTNESS_MODE_LOW_PERSISTENCE ∧ mode = BRIGHTNESS_MODE_LOW_PERSISTENCE)) := by
  unfold spec_flag_trigger
  constructor
  · rintro (⟨h₁, h₂⟩ | ⟨h₁, h₂⟩)
    · exact Or.inr ⟨fun h => h₁ (h.trans h₂.symm), h₂⟩
    · exact Or.inl ⟨h₂, h₁⟩
  · rintro (⟨h₁, h₂⟩ | ⟨h₁, h₂⟩)
    · exact Or.inr ⟨h₂, h₁⟩
    · exact Or.inl ⟨fun h => h₁ (h.trans h₂), h₂⟩

/-- Every write `set_light_backlight` makes with a valid handle, and what it
returns. -/
theorem backlight_effect (d : light_device_t) (state : light_state_t) (g : Globals)
    (w : Sysfs) :
    (set_light_backlight (some d) state g w).g
        = { g with g_last_backlight_mode := state.brightnessMode }
    ∧ (spec_flag_trigger g.g_last_backlight_mode state.brightnessMode →
        (w.write_result w.clock PERSISTENCE_FILE (lp_flag state.brightnessMode)).code ≠ 0 →
        (set_light_backlight (some d) state g w).sys.log = w.log ++
            [{ path := PERSISTENCE_FILE, value := lp_flag state.brightnessMode,
               ret := (w.write_result w.clock PERSISTENCE_FILE
                        (lp_flag state.brightnessMode)).code }]
        ∧ (set_light_backlight (some d) state g w).ret
            = (w.write_result w.clock PERSISTENCE_FILE (lp_flag state.brightnessMode)).code)
    ∧ (spec_flag_trigger g.g_last_backlight_mode state.brightnessMode →
        (w.write_result w.clock PERSISTENCE_FILE (lp_flag state.brightnessMode)).code = 0 →
        (set_light_backlight (some d) state g w).sys.log = w.log ++
            [{ path := PERSISTENCE_FILE, value := lp_flag state.brightnessMode, ret := 0 },
             { path := lcd_path (w.file_exists (w.clock + 1) LCD_FILE),
               value := if state.brightnessMode = BRIGHTNESS_MODE_LOW_PERSISTENCE
                 then DEFAULT_LOW_PERSISTENCE_MODE_BRIGHTNESS else rgb_to_brightness state,
               ret := (w.write_result (w.clock + 2)
                 (lcd_path (w.file_exists (w.clock + 1) LCD_FILE))
                 (if state.brightnessMode = BRIGHTNESS_MODE_LOW_PERSISTENCE
                   then DEFAULT_LOW_PERSISTENCE_MODE_BRIGHTNESS
                   else rgb_to_brightness state)).code }]
        ∧ (set_light_backlight (some d) state g w).ret
            = (w.write_result (w.clock + 2)
                 (lcd_path (w.file_exists (w.clock + 1) LCD_FILE))
                 (if state.brightnessMode = BRIGHTNESS_MODE_LOW_PERSISTENCE
                   then DEFAULT_LOW_PERSISTENCE_MODE_BRIGHTNESS
                   else rgb_to_brightness state)).code)
    ∧ (¬ spec_flag_trigger g.g_last_backlight_mode state.brightnessMode →
        (set_light_backlight (some d) state g w).sys.log = w.log ++
            [{ path := lcd_path (w.file_exists w.clock LCD_FILE),
               value := rgb_to_brightness state,
               ret := (w.write_result (w.clock + 1)
                 (lcd_path (w.file_exists w.clock LCD_FILE)) (rgb_to_brightness state)).code }]
        ∧ (set_light_backlight (some d) state g w).ret
            = (w.write_result (w.clock + 1)
                 (lcd_path (w.file_exists w.clock LCD_FILE)) (rgb_to_brightness state)).code) := by
  refine ⟨?_, ?_, ?_, ?_⟩
  · unfold set_light_backlight
    simp only [Option.isNone_some, Bool.false_eq_true, if_false]
    split_ifs <;> rfl
  · intro ht hc
    unfold set_light_backlight
    simp only [flag_test_iff, Option.isNone_some, Bool.false_eq_true, if_false, if_pos ht,
      write_int_ret]
    rw [← lp_flag] 
    simp [hc, write_int_log, write_int_ret]
  · intro ht hc
    unfold set_light_backlight
    simp only [flag_test_iff, Option.isNone_some, Bool.false_eq_true, if_false, if_pos ht,
      write_int_ret]
    rw [← lp_flag, if_pos hc]
    have hv : (if lp_flag state.brightnessMode ≠ 0 then DEFAULT_LOW_PERSISTENCE_MODE_BRIGHTNESS
        else rgb_to_brightness state)
        = (if state.brightnessMode = BRIGHTNESS_MODE_LOW_PERSISTENCE
            then DEFAULT_LOW_PERSISTENCE_MODE_BRIGHTNESS else rgb_to_brightness state) := by
      by_cases hm : state.brightnessMode = BRIGHTNESS_MODE_LOW_PERSISTENCE <;> simp [lp_flag, hm]
    rw [hv]
    by_cases he : w.file_exists (w.clock + 1) LCD_FILE = true <;>
      simp [hc, he, access, lcd_path, write_int_log, write_int_ret, write_int_clock,
        write_int_write_result, write_int_file_exists, add_assoc]
  · intro ht
    unfold set_light_backlight
    simp only [flag_test_iff, Option.isNone_some, Bool.false_eq_true, if_false, if_neg ht]
    by_cases he : w.file_exists w.clock LCD_FILE = true <;>
      simp [he, access, lcd_path, write_int_log, write_int_ret]

theorem lcd_path_ne_persistence (b : Bool) : lcd_path b ≠ PERSISTENCE_FILE := by
  cases b <;> decide

theorem values_to_append (p : String) (l₁ l₂ : List write_rec) :
    values_to p (l₁ ++ l₂) = values_to p l₁ ++ values_to p l₂ := by
  simp [values_to]

/-- The writes of one direct-path backlight update extend the log. -/
theorem backlight_log_extends (d : light_device_t) (state : light_state_t) (g : Globals)
    (w : Sysfs) :
    (set_light_backlight (some d) state g w).sys.log
      = w.log ++ new_writes w (set_light_backlight (some d) state g w).sys := by
  obtain ⟨-, h₁, h₂, h₃⟩ := backlight_effect d state g w
  by_cases ht : spec_flag_trigger g.g_last_backlight_mode state.brightnessMode
  · by_cases hc : (w.write_result w.clock PERSISTENCE_FILE (lp_flag state.brightnessMode)).code = 0
    · rw [new_writes_of_log (h₂ ht hc).1]; exact (h₂ ht hc).1
    · rw [new_writes_of_log (h₁ ht hc).1]; exact (h₁ ht hc).1
  · rw [new_writes_of_log (h₃ ht).1]; exact (h₃ ht).1

/-- The values one direct-path backlight update writes to the mode-flag file. -/
theorem backlight_flag_values (d : light_device_t) (state : light_state_t) (g : Globals)
    (w : Sysfs) :
    values_to PERSISTENCE_FILE (new_writes w (set_light_backlight (some d) state g w).sys)
      = if spec_flag_trigger g.g_last_backlight_mode state.brightnessMode
          then [lp_flag state.brightnessMode] else [] := by
  obtain ⟨-, h₁, h₂, h₃⟩ := backlight_effect d state g w
  by_cases ht : spec_flag_trigger g.g_last_backlight_mode state.brightnessMode
  · rw [if_pos ht]
    by_cases hc : (w.write_result w.clock PERSISTENCE_FILE (lp_flag state.brightnessMode)).code = 0
    · rw [new_writes_of_log (h₂ ht hc).1]
      simp [values_to, lcd_path_ne_persistence]
    · rw [new_writes_of_log (h₁ ht hc).1]
      simp [values_to]
  · rw [if_neg ht, new_writes_of_log (h₃ ht).1]
    simp [values_to, lcd_path_ne_persistence]

/-- C4: on the direct path with a valid handle the mode-flag file is written if
and only if `(lastBacklightMode != state.brightnessMode and state.brightnessMode
== LOW_PERSISTENCE) or (state.brightnessMode != LOW_PERSISTENCE and
lastBacklightMode == LOW_PERSISTENCE)`; the value written is 1 when entering and
0 when leaving low-persistence mode, and a change between USER and SENSOR writes
nothing to the flag file. -/
theorem C4_mode_flag_write_iff (d : light_device_t) (state : light_state_t) (g : Globals)
    (w : Sysfs) :
    (values_to PERSISTENCE_FILE (new_writes w (set_light_backlight (some d) state g w).sys) ≠ []
      ↔ ((g.g_last_backlight_mode ≠ state.brightnessMode ∧
            state.brightnessMode = BRIGHTNESS_MODE_LOW_PERSISTENCE) ∨
          (state.brightnessMode ≠ BRIGHTNESS_MODE_LOW_PERSISTENCE ∧
            g.g_last_backlight_mode = BRIGHTNESS_MODE_LOW_PERSISTENCE)))
    ∧ (g.g_last_backlight_mode ≠ BRIGHTNESS_MODE_LOW_PERSISTENCE →
        state.brightnessMode = BRIGHTNESS_MODE_LOW_PERSISTENCE →
        values_to PERSISTENCE_FILE (new_writes w (set_light_backlight (some d) state g w).sys)
          = [1])
    ∧ (g.g_last_backlight_mode = BRIGHTNESS_MODE_LOW_PERSISTENCE →
        state.brightnessMode ≠ BRIGHTNESS_MODE_LOW_PERSISTENCE →
        values_to PERSISTENCE_FILE (new_writes w (set_light_backlight (some d) state g w).sys)
          = [0])
    ∧ ((g.g_last_backlight_mode = BRIGHTNESS_MODE_USER ∨
          g.g_last_backlight_mode = BRIGHTNESS_MODE_SENSOR) →
        (state.brightnessMode = BRIGHTNESS_MODE_USER ∨
          state.brightnessMode = BRIGHTNESS_MODE_SENSOR) →
        values_to PERSISTENCE_FILE (new_writes w (set_light_backlight (some d) state g w).sys)
          = []) := by
  rw [backlight_flag_values]
  refine ⟨?_, ?_, ?_, ?_⟩
  · change _ ↔ spec_flag_trigger g.g_last_backlight_mode state.brightnessMode
    by_cases ht : spec_flag_trigger g.g_last_backlight_mode state.brightnessMode <;> simp [ht]
  · intro h₁ h₂
    have ht : spec_flag_trigger g.g_last_backlight_mode state.brightnessMode :=
      (spec_flag_trigger_iff _ _).2 (Or.inr ⟨h₁, h₂⟩)
    rw [if_pos ht]
    simp [lp_flag, h₂]
  · intro h₁ h₂
    have ht : spec_flag_trigger g.g_last_backlight_mode state.brightnessMode :=
      (spec_flag_trigger_iff _ _).2 (Or.inl ⟨h₁, h₂⟩)
    rw [if_pos ht]
    simp [lp_flag, h₂]
  · intro h₁ h₂
    have ht : ¬ spec_flag_trigger g.g_last_backlight_mode state.brightnessMode := by
      rw [spec_flag_trigger_iff]
      rcases h₁ with h₁ | h₁ <;> rcases h₂ with h₂ | h₂ <;>
        simp [h₁, h₂, BRIGHTNESS_MODE_USER, BRIGHTNESS_MODE_SENSOR,
          BRIGHTNESS_MODE_LOW_PERSISTENCE]
    simp [ht]

/-- C4 at a concrete input: from the initial statics (last mode USER) a request
for LOW_PERSISTENCE writes 1 to the mode-flag file. -/
theorem C4_mode_flag_write_iff_witness :
    Globals.initial.g_last_backlight_mode ≠ BRIGHTNESS_MODE_LOW_PERSISTENCE
    ∧ (2 : Int) = BRIGHTNESS_MODE_LOW_PERSISTENCE
    ∧ values_to PERSISTENCE_FILE
        (new_writes world_ok
          (set_light_backlight (some dev0)
            { color := 0x00FF00, flashMode := 0, flashOnMS := 0, flashOffMS := 0,
              brightnessMode := 2 } Globals.initial world_ok).sys) = [1] :=
  ⟨by decide, by decide,
    (C4_mode_flag_write_iff dev0
      { color := 0x00FF00, flashMode := 0, flashOnMS := 0, flashOffMS := 0,
        brightnessMode := 2 } Globals.initial world_ok).2.1 (by decide) (by decide)⟩


theorem flag_step_eq (last m : Int) :
    (if spec_flag_trigger last m then [lp_flag m] else [])
      = (if last ≠ BRIGHTNESS_MODE_LOW_PERSISTENCE ∧ m = BRIGHTNESS_MODE_LOW_PERSISTENCE then [1]
          else if last = BRIGHTNESS_MODE_LOW_PERSISTENCE ∧ m ≠ BRIGHTNESS_MODE_LOW_PERSISTENCE
            then [0] else []) := by
  by_cases h₁ : last = BRIGHTNESS_MODE_LOW_PERSISTENCE <;>
    by_cases h₂ : m = BRIGHTNESS_MODE_LOW_PERSISTENCE <;>
    simp [spec_flag_trigger_iff, lp_flag, h₁, h₂]

theorem lp_flag_values_length (modes : List Int) :
    ∀ last : Int, (lp_flag_values last modes).length = lp_crossings last modes := by
  induction modes with
  | nil => intro last; rfl
  | cons m rest ih =>
    intro last
    simp only [lp_flag_values, lp_crossings, List.length_append, ih]
    by_cases h₁ : last = BRIGHTNESS_MODE_LOW_PERSISTENCE <;>
      by_cases h₂ : m = BRIGHTNESS_MODE_LOW_PERSISTENCE <;>
      simp [h₁, h₂]

/-- The mode-flag values written by a sequence of direct-path backlight
updates. -/
theorem run_backlight_flag_values (d : light_device_t) (states : List light_state_t) :
    ∀ (g : Globals) (w : Sysfs),
      ∃ L : List write_rec,
        (run_backlight (some d) states g w).2.log = w.log ++ L
        ∧ values_to PERSISTENCE_FILE L
            = lp_flag_values g.g_last_backlight_mode
                (states.map (fun s => s.brightnessMode)) := by
  induction states with
  | nil =>
    intro g w
    exact ⟨[], by simp [run_backlight], by simp [lp_flag_values, values_to]⟩
  | cons s rest ih =>
    intro g w
    obtain ⟨L, hL, hv⟩ := ih (set_light_backlight (some d) s g w).g
      (set_light_backlight (some d) s g w).sys
    refine ⟨new_writes w (set_light_backlight (some d) s g w).sys ++ L, ?_, ?_⟩
    · simp only [run_backlight]
      rw [hL, backlight_log_extends, List.append_assoc]
    · rw [values_to_append, backlight_flag_values, hv, (backlight_effect d s g w).1,
        flag_step_eq]
      simp [lp_flag_values]

/-- C5: for every finite sequence of direct-path backlight updates with a valid
handle, started with `lastBacklightMode = USER`, and whatever the outcome of
each write, the mode-flag file receives one write per consecutive pair of
requested modes (USER prepended) of which exactly one is LOW_PERSISTENCE: 1 on
each entry, 0 on each exit. A request whose mode equals the last mode writes
nothing to the flag file, and the requests USER, LOW_PERSISTENCE,
LOW_PERSISTENCE, SENSOR write exactly 1 then 0. -/
theorem C5_flag_writes_count_lp_crossings (d : light_device_t)
    (states : List light_state_t) (g : Globals) (w : Sysfs)
    (h : g.g_last_backlight_mode = BRIGHTNESS_MODE_USER) :
    (values_to PERSISTENCE_FILE (new_writes w (run_backlight (some d) states g w).2)).length
        = lp_crossings BRIGHTNESS_MODE_USER (states.map (fun s => s.brightnessMode))
    ∧ values_to PERSISTENCE_FILE (new_writes w (run_backlight (some d) states g w).2)
        = lp_flag_values BRIGHTNESS_MODE_USER (states.map (fun s => s.brightnessMode))
    ∧ (∀ (s : light_state_t) (g₁ : Globals) (w₁ : Sysfs),
        g₁.g_last_backlight_mode = s.brightnessMode →
        values_to PERSISTENCE_FILE
          (new_writes w₁ (set_light_backlight (some d) s g₁ w₁).sys) = [])
    ∧ (states.map (fun s => s.brightnessMode)
          = [BRIGHTNESS_MODE_USER, BRIGHTNESS_MODE_LOW_PERSISTENCE,
             BRIGHTNESS_MODE_LOW_PERSISTENCE, BRIGHTNESS_MODE_SENSOR] →
        values_to PERSISTENCE_FILE (new_writes w (run_backlight (some d) states g w).2)
          = [1, 0]) := by
  obtain ⟨L, hL, hv⟩ := run_backlight_flag_values d states g w
  have hvals : values_to PERSISTENCE_FILE (new_writes w (run_backlight (some d) states g w).2)
      = lp_flag_values BRIGHTNESS_MODE_USER (states.map (fun s => s.brightnessMode)) := by
    rw [new_writes_of_log hL, hv, h]
  refine ⟨?_, hvals, ?_, ?_⟩
  · rw [hvals, lp_flag_values_length]
  · intro s g₁ w₁ hs
    rw [backlight_flag_values, if_neg]
    rw [spec_flag_trigger_iff, hs]
    rintro (⟨h₁, h₂⟩ | ⟨h₁, h₂⟩)
    · exact h₂ h₁
    · exact h₁ h₂
  · intro hm
    rw [hvals, hm]
    decide

/-- C5 at the spec's sequence, in a world where every write fails: USER,
LOW_PERSISTENCE, LOW_PERSISTENCE, SENSOR from the initial statics writes 1 then
0 to the mode-flag file, two writes for two boundary crossings. -/
theorem C5_flag_writes_count_lp_crossings_witness :
    Globals.initial.g_last_backlight_mode = BRIGHTNESS_MODE_USER
    ∧ values_to PERSISTENCE_FILE
        (new_writes world_eacces
          (run_backlight (some dev0)
            [{ color := 0xFFFFFF, flashMode := 0, flashOnMS := 0, flashOffMS := 0,
               brightnessMode := 0 },
             { color := 0xFFFFFF, flashMode := 0, flashOnMS := 0, flashOffMS := 0,
               brightnessMode := 2 },
             { color := 0xFFFFFF, flashMode := 0, flashOnMS := 0, flashOffMS := 0,
               brightnessMode := 2 },
             { color := 0xFFFFFF, flashMode := 0, flashOnMS := 0, flashOffMS := 0,
               brightnessMode := 1 }]
            Globals.initial world_eacces).2)
      = [1, 0] :=
  ⟨rfl,
    (C5_flag_writes_count_lp_crossings dev0
      [{ color := 0xFFFFFF, flashMode := 0, flashOnMS := 0, flashOffMS := 0,
         brightnessMode := 0 },
       { color := 0xFFFFFF, flashMode := 0, flashOnMS := 0, flashOffMS := 0,
         brightnessMode := 2 },
       { color := 0xFFFFFF, flashMode := 0, flashOnMS := 0, flashOffMS := 0,
         brightnessMode := 2 },
       { color := 0xFFFFFF, flashMode := 0, flashOnMS := 0, flashOffMS := 0,
         brightnessMode := 1 }]
      Globals.initial world_eacces rfl).2.2.2 (by decide)⟩


/-- The level that `set_light_backlight` hands to the backlight file: the
low-persistence default when the update enters LOW_PERSISTENCE from a different
last mode, the colour-derived brightness otherwise. Every backlight-level write
of the update carries it, and there is exactly one such write unless a
triggered mode-flag write failed. -/
theorem backlight_level_writes (d : light_device_t) (state : light_state_t) (g : Globals)
    (w : Sysfs) :
    ∃ (p : String) (c : Int),
      ((spec_flag_trigger g.g_last_backlight_mode state.brightnessMode ∧
          (w.write_result w.clock PERSISTENCE_FILE (lp_flag state.brightnessMode)).code ≠ 0) →
        (new_writes w (set_light_backlight (some d) state g w).sys).filter
          (fun r => r.path = LCD_FILE ∨ r.path = LCD_FILE2) = [])
      ∧ (¬ (spec_flag_trigger g.g_last_backlight_mode state.brightnessMode ∧
          (w.write_result w.clock PERSISTENCE_FILE (lp_flag state.brightnessMode)).code ≠ 0) →
        (new_writes w (set_light_backlight (some d) state g w).sys).filter
          (fun r => r.path = LCD_FILE ∨ r.path = LCD_FILE2)
          = [{ path := p,
               value :=
                 if g.g_last_backlight_mode ≠ state.brightnessMode ∧
                     state.brightnessMode = BRIGHTNESS_MODE_LOW_PERSISTENCE
                 then DEFAULT_LOW_PERSISTENCE_MODE_BRIGHTNESS else rgb_to_brightness state,
               ret := c }]) := by
  obtain ⟨-, h₁, h₂, h₃⟩ := backlight_effect d state g w
  have hp : ∀ (v c : Int), List.filter (fun r : write_rec => r.path = LCD_FILE ∨ r.path = LCD_FILE2)
      [{ path := PERSISTENCE_FILE, value := v, ret := c }] = [] := by
    intro v c
    have h₁ : PERSISTENCE_FILE ≠ LCD_FILE := by decide
    have h₂ : PERSISTENCE_FILE ≠ LCD_FILE2 := by decide
    rw [List.filter_cons_of_neg (by simp [h₁, h₂])]
    rfl
  have hl : ∀ (b : Bool) (v c : Int),
      List.filter (fun r : write_rec => r.path = LCD_FILE ∨ r.path = LCD_FILE2)
        [{ path := lcd_path b, value := v, ret := c }]
        = [{ path := lcd_path b, value := v, ret := c }] := by
    intro b v c
    rw [List.filter_cons_of_pos (by cases b <;> simp [lcd_path])]
    rfl
  by_cases ht : spec_flag_trigger g.g_last_backlight_mode state.brightnessMode
  · by_cases hc : (w.write_result w.clock PERSISTENCE_FILE (lp_flag state.brightnessMode)).code = 0
    · have hv : (if state.brightnessMode = BRIGHTNESS_MODE_LOW_PERSISTENCE
            then DEFAULT_LOW_PERSISTENCE_MODE_BRIGHTNESS else rgb_to_brightness state)
          = (if g.g_last_backlight_mode ≠ state.brightnessMode ∧
                state.brightnessMode = BRIGHTNESS_MODE_LOW_PERSISTENCE
              then DEFAULT_LOW_PERSISTENCE_MODE_BRIGHTNESS else rgb_to_brightness state) := by
        by_cases hm : state.brightnessMode = BRIGHTNESS_MODE_LOW_PERSISTENCE
        · have hne : g.g_last_backlight_mode ≠ state.brightnessMode := by
            rcases ht with ht | ht
            · exact ht.1
            · exact absurd hm ht.1
          rw [if_pos hm, if_pos ⟨hne, hm⟩]
        · rw [if_neg hm, if_neg (fun h => hm h.2)]
      refine ⟨lcd_path (w.file_exists (w.clock + 1) LCD_FILE),
        (set_light_backlight (some d) state g w).ret, fun h => absurd hc h.2, fun _ => ?_⟩
      rw [(h₂ ht hc).2, new_writes_of_log (h₂ ht hc).1,
        show ∀ a b : write_rec, [a, b] = [a] ++ [b] from fun _ _ => rfl, List.filter_append,
        hp, hl, hv]
      rfl
    · refine ⟨LCD_FILE, 0, fun _ => ?_, fun h => absurd ⟨ht, hc⟩ h⟩
      rw [new_writes_of_log (h₁ ht hc).1, hp]
  · have hv : ¬ (g.g_last_backlight_mode ≠ state.brightnessMode ∧
        state.brightnessMode = BRIGHTNESS_MODE_LOW_PERSISTENCE) := fun h => ht (Or.inl h)
    refine ⟨lcd_path (w.file_exists w.clock LCD_FILE),
      (set_light_backlight (some d) state g w).ret, fun h => absurd h.1 ht, fun _ => ?_⟩
    rw [(h₃ ht).2, new_writes_of_log (h₃ ht).1, hl, if_neg hv]

/-- C6: in every direct-path backlight update with a valid handle, each write
to a backlight level file (primary or fallback) carries the fixed default 0x80
when the update enters LOW_PERSISTENCE from a different last mode (the case in
which the mode-flag path fires with low persistence requested) and
`rgb_to_brightness state` in every other case, among them a repeated
LOW_PERSISTENCE request and a LOW_PERSISTENCE to SENSOR transition; the level
write is performed whenever no triggered mode-flag write failed. -/
theorem C6_level_default_only_on_entering_lp (d : light_device_t) (state : light_state_t)
    (g : Globals) (w : Sysfs) :
    (∀ r ∈ new_writes w (set_light_backlight (some d) state g w).sys,
        (r.path = LCD_FILE ∨ r.path = LCD_FILE2) →
        ((g.g_last_backlight_mode ≠ state.brightnessMode ∧
            state.brightnessMode = BRIGHTNESS_MODE_LOW_PERSISTENCE) →
          r.value = DEFAULT_LOW_PERSISTENCE_MODE_BRIGHTNESS ∧ r.value = 0x80)
        ∧ (¬ (g.g_last_backlight_mode ≠ state.brightnessMode ∧
              state.brightnessMode = BRIGHTNESS_MODE_LOW_PERSISTENCE) →
          r.value = rgb_to_brightness state)
        ∧ (g.g_last_backlight_mode = BRIGHTNESS_MODE_LOW_PERSISTENCE →
            state.brightnessMode = BRIGHTNESS_MODE_LOW_PERSISTENCE →
            r.value = rgb_to_brightness state)
        ∧ (g.g_last_backlight_mode = BRIGHTNESS_MODE_LOW_PERSISTENCE →
            state.brightnessMode = BRIGHTNESS_MODE_SENSOR →
            r.value = rgb_to_brightness state))
    ∧ (¬ (spec_flag_trigger g.g_last_backlight_mode state.brightnessMode ∧
          w.write_result w.clock PERSISTENCE_FILE (lp_flag state.brightnessMode)
            ≠ io_result.ok) →
        ((new_writes w (set_light_backlight (some d) state g w).sys).filter
          (fun r => r.path = LCD_FILE ∨ r.path = LCD_FILE2)).length = 1) := by
  obtain ⟨p, c, hf₁, hf₂⟩ := backlight_level_writes d state g w
  constructor
  · intro r hr hp
    have hmem : r ∈ (new_writes w (set_light_backlight (some d) state g w).sys).filter
        (fun r => r.path = LCD_FILE ∨ r.path = LCD_FILE2) := by
      simp [List.mem_filter, hr, hp]
    by_cases hfail : spec_flag_trigger g.g_last_backlight_mode state.brightnessMode ∧
        (w.write_result w.clock PERSISTENCE_FILE (lp_flag state.brightnessMode)).code ≠ 0
    · rw [hf₁ hfail] at hmem
      simp at hmem
    · rw [hf₂ hfail] at hmem
      have hr' := List.mem_singleton.1 hmem
      have hval : r.value = if g.g_last_backlight_mode ≠ state.brightnessMode ∧
          state.brightnessMode = BRIGHTNESS_MODE_LOW_PERSISTENCE
          then DEFAULT_LOW_PERSISTENCE_MODE_BRIGHTNESS else rgb_to_brightness state := by
        rw [hr']
      have hother : ¬ (g.g_last_backlight_mode ≠ state.brightnessMode ∧
          state.brightnessMode = BRIGHTNESS_MODE_LOW_PERSISTENCE) →
          r.value = rgb_to_brightness state := by
        intro hn; rw [hval, if_neg hn]
      refine ⟨?_, hother, ?_, ?_⟩
      · intro he
        rw [hval, if_pos he]
        exact ⟨rfl, rfl⟩
      · intro h₁ h₂
        exact hother (fun he => he.1 (h₁.trans h₂.symm))
      · intro _ h₂
        refine hother (fun he => ?_)
        rw [h₂] at he
        exact absurd he.2 (by decide)
  · intro hno
    rw [hf₂]
    · rfl
    · rintro ⟨ht, hc⟩
      exact hno ⟨ht, fun hok => hc ((io_result.code_eq_zero_iff _).2 hok)⟩

/-- C6 at concrete inputs: from the initial statics a LOW_PERSISTENCE request of
colour 0xFFFFFF writes level 0x80, not 255, when every write succeeds. -/
theorem C6_level_default_only_on_entering_lp_witness :
    ({ path := LCD_FILE, value := 0x80, ret := 0 } : write_rec)
        ∈ new_writes world_ok
          (set_light_backlight (some dev0)
            { color := 0xFFFFFF, flashMode := 0, flashOnMS := 0, flashOffMS := 0,
              brightnessMode := 2 } Globals.initial world_ok).sys
    ∧ (Globals.initial.g_last_backlight_mode ≠ (2 : Int)
        ∧ (2 : Int) = BRIGHTNESS_MODE_LOW_PERSISTENCE)
    ∧ ((0x80 : Int) = DEFAULT_LOW_PERSISTENCE_MODE_BRIGHTNESS ∧ (0x80 : Int) = 0x80) :=
  ⟨by decide, by decide,
    ((C6_level_default_only_on_entering_lp dev0
      { color := 0xFFFFFF, flashMode := 0, flashOnMS := 0, flashOffMS := 0,
        brightnessMode := 2 } Globals.initial world_ok).1
      { path := LCD_FILE, value := 0x80, ret := 0 } (by decide) (Or.inl rfl)).1
      (by decide)⟩


/-! ## Null handles and failed writes -/

/-- With a null handle `set_speaker_light_locked` returns -1 and leaves the
world alone. -/
theorem resolver_null (state : light_state_t) (w : Sysfs) :
    set_speaker_light_locked none state w = (-1, w) := by
  simp [set_speaker_light_locked]

theorem handle_null (g : Globals) (w : Sysfs) :
    handle_speaker_battery_locked none g w = w := by
  unfold handle_speaker_battery_locked
  split_ifs <;> simp [resolver_null]

/-- C7: what the entry points do with a null device handle. Both backlight
entry points return -1, leave every static unchanged and make no write. The
battery, notification and attention entry points make no write either, but they
return 0, and they store their argument first: a battery update stores the new
battery state, a notification update the new notification state, an attention
update of flash mode HARDWARE the new attention value. At the input
`set_light_battery(NULL, {color = 0xFF0000})` on the initial statics the result
is 0 and the statics are no longer the initial ones. -/
theorem C7_null_handle_led_entry_points_store_and_return_zero :
    (∀ (state : light_state_t) (g : Globals) (w : Sysfs),
        (set_light_backlight none state g w).ret = -1
        ∧ (set_light_backlight none state g w).g = g
        ∧ (set_light_backlight none state g w).sys = w
        ∧ (set_light_backlight_ext none state g w).ret = -1
        ∧ (set_light_backlight_ext none state g w).g = g
        ∧ (set_light_backlight_ext none state g w).sys = w)
    ∧ (∀ (state : light_state_t) (g : Globals) (w : Sysfs),
        (set_light_battery none state g w).sys = w
        ∧ (set_light_notifications none state g w).sys = w
        ∧ (set_light_attention none state g w).sys = w)
    ∧ (∀ (state : light_state_t) (g : Globals) (w : Sysfs),
        (set_light_battery none state g w).ret = 0
        ∧ (set_light_battery none state g w).g = { g with g_battery := state }
        ∧ (set_light_notifications none state g w).ret = 0
        ∧ (set_light_notifications none state g w).g = { g with g_notification := state }
        ∧ (set_light_attention none state g w).ret = 0)
    ∧ (set_light_battery none
          { color := 0xFF0000, flashMode := 0, flashOnMS := 0, flashOffMS := 0,
            brightnessMode := 0 } Globals.initial world_ok).ret = 0
    ∧ (set_light_battery none
          { color := 0xFF0000, flashMode := 0, flashOnMS := 0, flashOffMS := 0,
            brightnessMode := 0 } Globals.initial world_ok).g ≠ Globals.initial
    ∧ (set_light_attention none
          { color := 0, flashMode := LIGHT_FLASH_HARDWARE, flashOnMS := 7, flashOffMS := 0,
            brightnessMode := 0 } Globals.initial world_ok).g.g_attention = 7 := by
  refine ⟨?_, ?_, ?_, rfl, by decide, by decide⟩
  · intro state g w
    simp [set_light_backlight, set_light_backlight_ext]
  · intro state g w
    simp [set_light_battery, set_light_notifications, set_light_attention, handle_null]
  · intro state g w
    simp [set_light_battery, set_light_notifications, set_light_attention]

/-- C8, as stated, fails for the LED entry points: in a world where every write
fails with EACCES, a battery update of colour 0xFF0000 with a valid handle makes
one write, of level 76 to the LED level file, which fails with code -13, and
the update returns 0. -/
theorem C8_led_update_ignores_write_failure :
    new_writes world_eacces
        (set_light_battery (some dev0)
          { color := 0xFF0000, flashMode := 0, flashOnMS := 0, flashOffMS := 0,
            brightnessMode := 0 } Globals.initial world_eacces).sys
      = [{ path := LED_FILE, value := 76, ret := -13 }]
    ∧ (set_light_battery (some dev0)
          { color := 0xFF0000, flashMode := 0, flashOnMS := 0, flashOffMS := 0,
            brightnessMode := 0 } Globals.initial world_eacces).ret = 0
    ∧ ¬ (∀ r ∈ new_writes world_eacces
            (set_light_battery (some dev0)
              { color := 0xFF0000, flashMode := 0, flashOnMS := 0, flashOffMS := 0,
                brightnessMode := 0 } Globals.initial world_eacces).sys,
          r.ret ≠ 0 →
          (set_light_battery (some dev0)
              { color := 0xFF0000, flashMode := 0, flashOnMS := 0, flashOffMS := 0,
                brightnessMode := 0 } Globals.initial world_eacces).ret = r.ret) := by
  refine ⟨by decide, rfl, ?_⟩
  intro h
  exact absurd (h { path := LED_FILE, value := 76, ret := -13 } (by decide) (by decide))
    (by decide)

/-- C8, amended: a direct-path backlight update with a valid handle returns the
negative code of the write that failed, and returns 0 exactly when no write it
made failed; the extended backlight update makes no file write and returns 0;
battery, notification and attention updates return 0 whatever the outcome of
their writes. -/
theorem C8_backlight_returns_failure_led_returns_zero (d : light_device_t)
    (state : light_state_t) (g : Globals) (w : Sysfs) :
    (∀ r ∈ new_writes w (set_light_backlight (some d) state g w).sys, r.ret ≠ 0 →
        (set_light_backlight (some d) state g w).ret = r.ret ∧ r.ret < 0)
    ∧ ((set_light_backlight (some d) state g w).ret = 0
        ↔ ∀ r ∈ new_writes w (set_light_backlight (some d) state g w).sys, r.ret = 0)
    ∧ (set_light_backlight_ext (some d) state g w).ret = 0
    ∧ new_writes w (set_light_backlight_ext (some d) state g w).sys = []
    ∧ (set_light_battery (some d) state g w).ret = 0
    ∧ (set_light_notifications (some d) state g w).ret = 0
    ∧ (set_light_attention (some d) state g w).ret = 0 := by
  obtain ⟨-, h₁, h₂, h₃⟩ := backlight_effect d state g w
  have hneg : ∀ r : io_result, r.code ≠ 0 → r.code < 0 := fun r hr =>
    lt_of_le_of_ne r.code_nonpos hr
  have hext : new_writes w (set_light_backlight_ext (some d) state g w).sys = [] := by
    unfold set_light_backlight_ext
    simp only [Option.isNone_some, Bool.false_eq_true, if_false]
    split_ifs <;> simp [new_writes, set_brightness_ext_level]
  have hextr : (set_light_backlight_ext (some d) state g w).ret = 0 := by
    unfold set_light_backlight_ext
    simp only [Option.isNone_some, Bool.false_eq_true, if_false]
    split_ifs <;> rfl
  refine ⟨?_, ?_, hextr, hext, rfl, rfl, rfl⟩
  · by_cases ht : spec_flag_trigger g.g_last_backlight_mode state.brightnessMode
    · by_cases hc : (w.write_result w.clock PERSISTENCE_FILE
          (lp_flag state.brightnessMode)).code = 0
      · rw [new_writes_of_log (h₂ ht hc).1, (h₂ ht hc).2]
        intro r hr hne
        simp only [List.mem_cons, List.mem_singleton, List.not_mem_nil, or_false] at hr
        rcases hr with hr | hr
        · rw [hr] at hne; exact absurd rfl hne
        · rw [hr] at hne ⊢
          exact ⟨rfl, hneg _ hne⟩
      · rw [new_writes_of_log (h₁ ht hc).1, (h₁ ht hc).2]
        intro r hr hne
        rw [List.mem_singleton.1 hr]
        exact ⟨rfl, hneg _ hc⟩
    · rw [new_writes_of_log (h₃ ht).1, (h₃ ht).2]
      intro r hr hne
      rw [List.mem_singleton.1 hr] at hne ⊢
      exact ⟨rfl, hneg _ hne⟩
  · by_cases ht : spec_flag_trigger g.g_last_backlight_mode state.brightnessMode
    · by_cases hc : (w.write_result w.clock PERSISTENCE_FILE
          (lp_flag state.brightnessMode)).code = 0
      · rw [new_writes_of_log (h₂ ht hc).1, (h₂ ht hc).2]
        simp
      · rw [new_writes_of_log (h₁ ht hc).1, (h₁ ht hc).2]
        simp
    · rw [new_writes_of_log (h₃ ht).1, (h₃ ht).2]
      simp

/-- C8 amended, at a concrete input: when every write fails with EACCES, a
LOW_PERSISTENCE backlight request from the initial statics returns -13, the
code of its failed mode-flag write. -/
theorem C8_backlight_returns_failure_led_returns_zero_witness :
    ({ path := PERSISTENCE_FILE, value := 1, ret := -13 } : write_rec)
        ∈ new_writes world_eacces
          (set_light_backlight (some dev0)
            { color := 0xFFFFFF, flashMode := 0, flashOnMS := 0, flashOffMS := 0,
              brightnessMode := 2 } Globals.initial world_eacces).sys
    ∧ (-13 : Int) ≠ 0
    ∧ ((set_light_backlight (some dev0)
            { color := 0xFFFFFF, flashMode := 0, flashOnMS := 0, flashOffMS := 0,
              brightnessMode := 2 } Globals.initial world_eacces).ret = -13
        ∧ (-13 : Int) < 0) :=
  ⟨by decide, by decide,
    (C8_backlight_returns_failure_led_returns_zero dev0
      { color := 0xFFFFFF, flashMode := 0, flashOnMS := 0, flashOffMS := 0,
        brightnessMode := 2 } Globals.initial world_eacces).1
      { path := PERSISTENCE_FILE, value := 1, ret := -13 } (by decide) (by decide)⟩


theorem attention_statics (dev : Option light_device_t) (state : light_state_t)
    (g : Globals) (w : Sysfs) :
    (set_light_attention dev state g w).g
      = if state.flashMode = LIGHT_FLASH_HARDWARE then { g with g_attention := state.flashOnMS }
        else if state.flashMode = LIGHT_FLASH_NONE then { g with g_attention := 0 }
        else g := rfl

/-- C9: with a valid handle the statics after an update do not depend on the
world, hence not on the outcome of any write: in any two worlds `w₁`, `w₂` the
update leaves the same statics. After a battery update the battery slot is the
new state, after a notification update the notification slot is the new state,
and after a direct-path backlight update `g_last_backlight_mode` is
`state.brightnessMode`, whether or not the mode-flag write failed. -/
theorem C9_statics_independent_of_write_outcomes (d : light_device_t)
    (state : light_state_t) (g : Globals) (w₁ w₂ : Sysfs) :
    (set_light_battery (some d) state g w₁).g = (set_light_battery (some d) state g w₂).g
    ∧ (set_light_battery (some d) state g w₁).g = { g with g_battery := state }
    ∧ (set_light_battery (some d) state g w₁).g.g_battery = state
    ∧ (set_light_notifications (some d) state g w₁).g
        = (set_light_notifications (some d) state g w₂).g
    ∧ (set_light_notifications (some d) state g w₁).g = { g with g_notification := state }
    ∧ (set_light_notifications (some d) state g w₁).g.g_notification = state
    ∧ (set_light_attention (some d) state g w₁).g = (set_light_attention (some d) state g w₂).g
    ∧ (set_light_backlight (some d) state g w₁).g = (set_light_backlight (some d) state g w₂).g
    ∧ (set_light_backlight (some d) state g w₁).g
        = { g with g_last_backlight_mode := state.brightnessMode }
    ∧ (set_light_backlight (some d) state g w₁).g.g_last_backlight_mode = state.brightnessMode
    ∧ (set_light_backlight_ext (some d) state g w₁).g = g := by
  have hb := fun w => (backlight_effect d state g w).1
  refine ⟨rfl, rfl, rfl, rfl, rfl, rfl, ?_, ?_, hb w₁, ?_, ?_⟩
  · rw [attention_statics, attention_statics]
  · rw [hb w₁, hb w₂]
  · rw [hb w₁]
  · unfold set_light_backlight_ext
    simp only [Option.isNone_some, Bool.false_eq_true, if_false]
    split_ifs <;> rfl

/-- C10, as stated, fails: in a world where every write fails with EACCES, a
LOW_PERSISTENCE backlight request from the initial statics triggers the
mode-flag write, which fails, and that is the only write of the update: no
write to the primary or the fallback backlight level file is attempted. -/
theorem C10_failed_flag_write_skips_level_write :
    new_writes world_eacces
        (set_light_backlight (some dev0)
          { color := 0xFFFFFF, flashMode := 0, flashOnMS := 0, flashOffMS := 0,
            brightnessMode := 2 } Globals.initial world_eacces).sys
      = [{ path := PERSISTENCE_FILE, value := 1, ret := -13 }]
    ∧ (new_writes world_eacces
        (set_light_backlight (some dev0)
          { color := 0xFFFFFF, flashMode := 0, flashOnMS := 0, flashOffMS := 0,
            brightnessMode := 2 } Globals.initial world_eacces).sys).filter
          (fun r => r.path = LCD_FILE ∨ r.path = LCD_FILE2) = []
    ∧ (set_light_backlight (some dev0)
          { color := 0xFFFFFF, flashMode := 0, flashOnMS := 0, flashOffMS := 0,
            brightnessMode := 2 } Globals.initial world_eacces).ret = -13 := by
  refine ⟨by decide, by decide, by decide⟩

/-- C10, amended: in a direct-path backlight update with a valid handle whose
mode-flag write is triggered and fails, the mode-flag write is the only write:
no backlight level write is attempted. The failure's negative code is the
return value and `g_last_backlight_mode` is still set to the requested mode. -/
theorem C10_failed_flag_write_is_only_write (d : light_device_t) (state : light_state_t)
    (g : Globals) (w : Sysfs)
    (htrig : (g.g_last_backlight_mode ≠ state.brightnessMode ∧
          state.brightnessMode = BRIGHTNESS_MODE_LOW_PERSISTENCE) ∨
        (state.brightnessMode ≠ BRIGHTNESS_MODE_LOW_PERSISTENCE ∧
          g.g_last_backlight_mode = BRIGHTNESS_MODE_LOW_PERSISTENCE))
    (hfail : w.write_result w.clock PERSISTENCE_FILE (lp_flag state.brightnessMode)
        ≠ io_result.ok) :
    new_writes w (set_light_backlight (some d) state g w).sys
        = [{ path := PERSISTENCE_FILE, value := lp_flag state.brightnessMode,
             ret := (w.write_result w.clock PERSISTENCE_FILE
                      (lp_flag state.brightnessMode)).code }]
    ∧ (new_writes w (set_light_backlight (some d) state g w).sys).filter
          (fun r => r.path = LCD_FILE ∨ r.path = LCD_FILE2) = []
    ∧ (set_light_backlight (some d) state g w).ret
        = (w.write_result w.clock PERSISTENCE_FILE (lp_flag state.brightnessMode)).code
    ∧ (set_light_backlight (some d) state g w).ret < 0
    ∧ (set_light_backlight (some d) state g w).g.g_last_backlight_mode
        = state.brightnessMode := by
  obtain ⟨hg, h₁, -, -⟩ := backlight_effect d state g w
  have hc : (w.write_result w.clock PERSISTENCE_FILE (lp_flag state.brightnessMode)).code ≠ 0 :=
    fun h => hfail ((io_result.code_eq_zero_iff _).1 h)
  have hw := new_writes_of_log (h₁ htrig hc).1
  have hp₁ : PERSISTENCE_FILE ≠ LCD_FILE := by decide
  have hp₂ : PERSISTENCE_FILE ≠ LCD_FILE2 := by decide
  refine ⟨hw, ?_, (h₁ htrig hc).2, ?_, ?_⟩
  · rw [hw, List.filter_cons_of_neg (by simp [hp₁, hp₂])]
    rfl
  · rw [(h₁ htrig hc).2]
    exact lt_of_le_of_ne (io_result.code_nonpos _) hc
  · rw [hg]

/-- C10 amended, at a concrete input: LOW_PERSISTENCE requested from the initial
statics while every write fails with EACCES. -/
theorem C10_failed_flag_write_is_only_write_witness :
    ((Globals.initial.g_last_backlight_mode ≠ (2 : Int) ∧
          (2 : Int) = BRIGHTNESS_MODE_LOW_PERSISTENCE) ∨
        ((2 : Int) ≠ BRIGHTNESS_MODE_LOW_PERSISTENCE ∧
          Globals.initial.g_last_backlight_mode = BRIGHTNESS_MODE_LOW_PERSISTENCE))
    ∧ world_eacces.write_result world_eacces.clock PERSISTENCE_FILE (lp_flag 2) ≠ io_result.ok
    ∧ (set_light_backlight (some dev0)
          { color := 0xFFFFFF, flashMode := 0, flashOnMS := 0, flashOffMS := 0,
            brightnessMode := 2 } Globals.initial world_eacces).ret < 0 :=
  ⟨by decide, by simp [world_eacces],
    (C10_failed_flag_write_is_only_write dev0
      { color := 0xFFFFFF, flashMode := 0, flashOnMS := 0, flashOffMS := 0,
        brightnessMode := 2 } Globals.initial world_eacces (by decide)
      (by simp [world_eacces])).2.2.2.1⟩


/-! ## The brightness translation -/

theorem mask24_eq_mod (c : Nat) : c &&& 0x00ffffff = c % 2 ^ 24 :=
  Nat.and_pow_two_sub_one_eq_mod c 24

theorem mask8_eq_mod (c : Nat) : c &&& 0x00ff = c % 2 ^ 8 :=
  Nat.and_pow_two_sub_one_eq_mod c 8

/-- `rgb_to_brightness` is the spec's `toBrightness` of the colour. -/
theorem rgb_to_brightness_eq (state : light_state_t) :
    rgb_to_brightness state = toBrightness state.color := by
  unfold rgb_to_brightness toBrightness spec_luma spec_red spec_green spec_blue
  simp only [mask24_eq_mod, mask8_eq_mod, Nat.shiftRight_eq_div_pow]
  congr 1
  norm_num
  omega

theorem spec_luma_le (c : Nat) : spec_luma c ≤ 65280 := by
  unfold spec_luma spec_red spec_green spec_blue
  norm_num
  omega

theorem rgb_to_brightness_range (state : light_state_t) :
    0 ≤ rgb_to_brightness state ∧ rgb_to_brightness state ≤ 255 := by
  rw [rgb_to_brightness_eq]
  unfold toBrightness
  have := spec_luma_le state.color
  constructor
  · exact Int.ofNat_nonneg _
  · have h : spec_luma state.color / 256 ≤ 255 := by omega
    exact_mod_cast h


/-! ## Unlit winners and attention updates -/

/-- An attention update re-runs `handle_speaker_battery_locked`; the world it
leaves is the one the resolver leaves on the winner of the unchanged slots. -/
theorem attention_sys (dev : Option light_device_t) (state : light_state_t) (g : Globals)
    (w : Sysfs) :
    (set_light_attention dev state g w).sys
      = (set_speaker_light_locked dev (spec_winner g) w).2 := by
  simp only [set_light_attention, handle_eq_resolver_on_winner]
  split_ifs <;> rfl

/-- C12: an attention update with a valid handle leaves the battery and the
notification slot unchanged and leaves the world that re-evaluating the
battery/notification winner on the current slots leaves, so it makes exactly
those hardware writes; the world it leaves is the same for every attention
state and every recorded attention value. The recorded attention value becomes
`flashOnMS` when the flash mode is HARDWARE, 0 when it is NONE, and is left
unchanged otherwise. -/
theorem C12_attention_reevaluates_winner_only (d : light_device_t) (state : light_state_t)
    (g : Globals) (w : Sysfs) :
    (set_light_attention (some d) state g w).g.g_battery = g.g_battery
    ∧ (set_light_attention (some d) state g w).g.g_notification = g.g_notification
    ∧ (set_light_attention (some d) state g w).sys = handle_speaker_battery_locked (some d) g w
    ∧ new_writes w (set_light_attention (some d) state g w).sys
        = new_writes w (handle_speaker_battery_locked (some d) g w)
    ∧ (∀ (state₂ : light_state_t) (a : Int),
        (set_light_attention (some d) state₂ { g with g_attention := a } w).sys
          = (set_light_attention (some d) state g w).sys)
    ∧ (state.flashMode = LIGHT_FLASH_HARDWARE →
        (set_light_attention (some d) state g w).g.g_attention = state.flashOnMS)
    ∧ (state.flashMode = LIGHT_FLASH_NONE →
        (set_light_attention (some d) state g w).g.g_attention = 0)
    ∧ (state.flashMode ≠ LIGHT_FLASH_HARDWARE → state.flashMode ≠ LIGHT_FLASH_NONE →
        (set_light_attention (some d) state g w).g = g) := by
  have hsys : (set_light_attention (some d) state g w).sys
      = handle_speaker_battery_locked (some d) g w := by
    rw [attention_sys, handle_eq_resolver_on_winner]
  refine ⟨?_, ?_, hsys, by rw [hsys], ?_, ?_, ?_, ?_⟩
  · rw [attention_statics]; split_ifs <;> rfl
  · rw [attention_statics]; split_ifs <;> rfl
  · intro state₂ a
    rw [attention_sys, attention_sys]
    rfl
  · intro h
    rw [attention_statics, if_pos h]
  · intro h
    have hne : state.flashMode ≠ LIGHT_FLASH_HARDWARE := by
      rw [h]; decide
    rw [attention_statics, if_neg hne, if_pos h]
  · intro h₁ h₂
    rw [attention_statics, if_neg h₁, if_neg h₂]

/-- C12 at a concrete input: a HARDWARE attention request with `flashOnMS = 7`
records 7; a TIMED one leaves the statics as they were. -/
theorem C12_attention_reevaluates_winner_only_witness :
    (2 : Int) = LIGHT_FLASH_HARDWARE
    ∧ (set_light_attention (some dev0)
          { color := 0xFFFFFF, flashMode := 2, flashOnMS := 7, flashOffMS := 0,
            brightnessMode := 0 } Globals.initial world_ok).g.g_attention = 7 :=
  ⟨by decide,
    (C12_attention_reevaluates_winner_only dev0
      { color := 0xFFFFFF, flashMode := 2, flashOnMS := 7, flashOffMS := 0,
        brightnessMode := 0 } Globals.initial world_ok).2.2.2.2.2.1 (by decide)⟩


/-! ## Range of the values written -/

/-- Every value the resolver writes, to either LED file, is in [0, 255]. -/
theorem resolver_values_range (dev : Option light_device_t) (state : light_state_t)
    (w : Sysfs) :
    ∀ r ∈ new_writes w (set_speaker_light_locked dev state w).2,
      0 ≤ r.value ∧ r.value ≤ 255 := by
  cases dev with
  | none =>
    rw [resolver_null]
    simp [new_writes_self]
  | some d =>
    have hw := new_writes_of_log (resolver_log d state w)
    have hr := rgb_to_brightness_range state
    rw [hw]
    intro r hmem
    split_ifs at hmem
    · simp only [List.mem_cons, List.mem_singleton, List.not_mem_nil, or_false] at hmem
      rcases hmem with h | h <;> rw [h] <;> simp
    · rw [List.mem_singleton.1 hmem]; simp
    · rw [List.mem_singleton.1 hmem]; exact hr

/-- Every value a direct-path backlight update writes, to the mode-flag file or
to a backlight level file, is in [0, 255]. -/
theorem backlight_values_range (dev : Option light_device_t) (state : light_state_t)
    (g : Globals) (w : Sysfs) :
    ∀ r ∈ new_writes w (set_light_backlight dev state g w).sys,
      0 ≤ r.value ∧ r.value ≤ 255 := by
  cases dev with
  | none =>
    have h : (set_light_backlight none state g w).sys = w := by
      simp [set_light_backlight]
    rw [h]
    simp [new_writes_self]
  | some d =>
    obtain ⟨-, h₁, h₂, h₃⟩ := backlight_effect d state g w
    have hr := rgb_to_brightness_range state
    have hf : 0 ≤ lp_flag state.brightnessMode ∧ lp_flag state.brightnessMode ≤ 255 := by
      unfold lp_flag; split_ifs <;> simp
    have hl : 0 ≤ (if state.brightnessMode = BRIGHTNESS_MODE_LOW_PERSISTENCE
          then DEFAULT_LOW_PERSISTENCE_MODE_BRIGHTNESS else rgb_to_brightness state)
        ∧ (if state.brightnessMode = BRIGHTNESS_MODE_LOW_PERSISTENCE
          then DEFAULT_LOW_PERSISTENCE_MODE_BRIGHTNESS else rgb_to_brightness state) ≤ 255 := by
      split_ifs
      · simp [DEFAULT_LOW_PERSISTENCE_MODE_BRIGHTNESS]
      · exact hr
    intro r hmem
    by_cases ht : spec_flag_trigger g.g_last_backlight_mode state.brightnessMode
    · by_cases hc : (w.write_result w.clock PERSISTENCE_FILE
          (lp_flag state.brightnessMode)).code = 0
      · rw [new_writes_of_log (h₂ ht hc).1] at hmem
        simp only [List.mem_cons, List.mem_singleton, List.not_mem_nil, or_false] at hmem
        rcases hmem with h | h
        · rw [h]; exact hf
        · rw [h]; exact hl
      · rw [new_writes_of_log (h₁ ht hc).1] at hmem
        rw [List.mem_singleton.1 hmem]; exact hf
    · rw [new_writes_of_log (h₃ ht).1] at hmem
      rw [List.mem_singleton.1 hmem]; exact hr

/-- C13: for every handle, registry, input state (any colour, modes and
durations) and world (hence every outcome of every write), each value that a
battery, notification, attention or direct-path backlight update writes to the
LED level file or to a backlight level file lies in [0, 255]. -/
theorem C13_level_values_in_byte_range (dev : Option light_device_t) (state : light_state_t)
    (g : Globals) (w : Sysfs) :
    (∀ r ∈ new_writes w (set_light_battery dev state g w).sys,
        (r.path = LED_FILE ∨ r.path = LCD_FILE ∨ r.path = LCD_FILE2) →
        0 ≤ r.value ∧ r.value ≤ 255)
    ∧ (∀ r ∈ new_writes w (set_light_notifications dev state g w).sys,
        (r.path = LED_FILE ∨ r.path = LCD_FILE ∨ r.path = LCD_FILE2) →
        0 ≤ r.value ∧ r.value ≤ 255)
    ∧ (∀ r ∈ new_writes w (set_light_attention dev state g w).sys,
        (r.path = LED_FILE ∨ r.path = LCD_FILE ∨ r.path = LCD_FILE2) →
        0 ≤ r.value ∧ r.value ≤ 255)
    ∧ (∀ r ∈ new_writes w (set_light_backlight dev state g w).sys,
        (r.path = LED_FILE ∨ r.path = LCD_FILE ∨ r.path = LCD_FILE2) →
        0 ≤ r.value ∧ r.value ≤ 255) := by
  refine ⟨?_, ?_, ?_, ?_⟩
  · intro r hr _
    have hs : (set_light_battery dev state g w).sys
        = (set_speaker_light_locked dev (spec_winner { g with g_battery := state }) w).2 := by
      simp [set_light_battery, handle_eq_resolver_on_winner]
    rw [hs] at hr
    exact resolver_values_range dev _ w r hr
  · intro r hr _
    have hs : (set_light_notifications dev state g w).sys
        = (set_speaker_light_locked dev
            (spec_winner { g with g_notification := state }) w).2 := by
      simp [set_light_notifications, handle_eq_resolver_on_winner]
    rw [hs] at hr
    exact resolver_values_range dev _ w r hr
  · intro r hr _
    rw [attention_sys] at hr
    exact resolver_values_range dev _ w r hr
  · intro r hr _
    exact backlight_values_range dev state g w r hr

/-- C13 at a concrete input: colour 0xFFFFFFFF, the largest 32-bit colour, as a
backlight request when every write succeeds: the level written is 255. -/
theorem C13_level_values_in_byte_range_witness :
    ({ path := LCD_FILE, value := 255, ret := 0 } : write_rec)
        ∈ new_writes world_ok
          (set_light_backlight (some dev0)
            { color := 0xFFFFFFFF, flashMode := 0, flashOnMS := 0, flashOffMS := 0,
              brightnessMode := 0 } Globals.initial world_ok).sys
    ∧ (LCD_FILE = LED_FILE ∨ LCD_FILE = LCD_FILE ∨ LCD_FILE = LCD_FILE2)
    ∧ ((0 : Int) ≤ 255 ∧ (255 : Int) ≤ 255) :=
  ⟨by decide, Or.inr (Or.inl rfl),
    (C13_level_values_in_byte_range (some dev0)
      { color := 0xFFFFFFFF, flashMode := 0, flashOnMS := 0, flashOffMS := 0,
        brightnessMode := 0 } Globals.initial world_ok).2.2.2
      { path := LCD_FILE, value := 255, ret := 0 } (by decide) (Or.inr (Or.inl rfl))⟩


/-- C14: for every colour, `rgb_to_brightness` returns
`floor((77*R + 150*G + 29*B) / 256)` where R is bits 16-23, G is bits 8-15 and B
is bits 0-7 of the colour; it returns 255 for 0xFFFFFF, 0 for 0x000000 and 76
for 0xFF0000, whatever the other fields of the state. -/
theorem C14_rgb_to_brightness_is_luma_floor (state : light_state_t) :
    rgb_to_brightness state = toBrightness state.color
    ∧ rgb_to_brightness state
        = (((77 * (state.color / 2 ^ 16 % 2 ^ 8) + 150 * (state.color / 2 ^ 8 % 2 ^ 8)
              + 29 * (state.color % 2 ^ 8)) / 256 : Nat) : Int)
    ∧ rgb_to_brightness { state with color := 0xFFFFFF } = 255
    ∧ rgb_to_brightness { state with color := 0x000000 } = 0
    ∧ rgb_to_brightness { state with color := 0xFF0000 } = 76 := by
  refine ⟨rgb_to_brightness_eq state, ?_, ?_, ?_, ?_⟩
  · rw [rgb_to_brightness_eq]
    rfl
  · rw [rgb_to_brightness_eq]
    show toBrightness 0xFFFFFF = 255
    decide
  · rw [rgb_to_brightness_eq]
    show toBrightness 0x000000 = 0
    decide
  · rw [rgb_to_brightness_eq]
    show toBrightness 0xFF0000 = 76
    decide

/-- C18: for colours that agree on their low 24 bits, whatever the other fields
of the two states, `rgb_to_brightness` returns the same value and `is_lit` is
nonzero for the one exactly when it is for the other; in particular adding any
top byte to a colour changes neither. -/
theorem C18_brightness_and_lit_ignore_top_byte (s₁ s₂ : light_state_t)
    (h : s₁.color % 2 ^ 24 = s₂.color % 2 ^ 24) :
    rgb_to_brightness s₁ = rgb_to_brightness s₂
    ∧ (is_lit s₁ ≠ 0 ↔ is_lit s₂ ≠ 0)
    ∧ is_lit s₁ = is_lit s₂
    ∧ (∀ a : Nat,
        rgb_to_brightness { s₁ with color := s₁.color % 2 ^ 24 + a * 2 ^ 24 }
            = rgb_to_brightness s₁
        ∧ is_lit { s₁ with color := s₁.color % 2 ^ 24 + a * 2 ^ 24 } = is_lit s₁) := by
  have hm : s₁.color &&& 0x00ffffff = s₂.color &&& 0x00ffffff := by
    rw [mask24_eq_mod, mask24_eq_mod, h]
  have hl : is_lit s₁ = is_lit s₂ := by
    unfold is_lit; rw [hm]
  refine ⟨?_, by rw [hl], hl, ?_⟩
  · unfold rgb_to_brightness; rw [hm]
  · intro a
    have ha : (s₁.color % 2 ^ 24 + a * 2 ^ 24) &&& 0x00ffffff = s₁.color &&& 0x00ffffff := by
      rw [mask24_eq_mod, mask24_eq_mod]
      omega
    constructor
    · unfold rgb_to_brightness
      simp only [ha]
    · unfold is_lit
      simp only [ha]

/-- C18 at a concrete input: 0xFF00FF00 and 0x0000FF00 give brightness 149
both. -/
theorem C18_brightness_and_lit_ignore_top_byte_witness :
    (0xFF00FF00 : Nat) % 2 ^ 24 = (0x0000FF00 : Nat) % 2 ^ 24
    ∧ rgb_to_brightness
        { color := 0xFF00FF00, flashMode := 1, flashOnMS := 500, flashOffMS := 500,
          brightnessMode := 2 }
      = rgb_to_brightness
        { color := 0x0000FF00, flashMode := 0, flashOnMS := 0, flashOffMS := 0,
          brightnessMode := 0 } :=
  ⟨by decide,
    (C18_brightness_and_lit_ignore_top_byte
      { color := 0xFF00FF00, flashMode := 1, flashOnMS := 500, flashOffMS := 500,
        brightnessMode := 2 }
      { color := 0x0000FF00, flashMode := 0, flashOnMS := 0, flashOffMS := 0,
        brightnessMode := 0 } (by decide)).1⟩

/-- C20: `rgb_to_brightness` is 0 exactly when `77*R + 150*G + 29*B < 256`, so a
lit state can have brightness 0. With a steady notification of colour 0xFFFFFF
(brightness 255) stored, a steady battery update of colour 0x000001 with a valid
handle is lit, wins, and its only write is level 0 to the LED level file. -/
theorem C20_lit_battery_with_zero_brightness (d : light_device_t) (state : light_state_t)
    (g : Globals) (w : Sysfs) :
    (rgb_to_brightness state = 0 ↔ spec_luma state.color < 256)
    ∧ (rgb_to_brightness state = 0
        ↔ 77 * (state.color / 2 ^ 16 % 2 ^ 8) + 150 * (state.color / 2 ^ 8 % 2 ^ 8)
            + 29 * (state.color % 2 ^ 8) < 256)
    ∧ is_lit { color := 0x000001, flashMode := LIGHT_FLASH_NONE, flashOnMS := 0,
               flashOffMS := 0, brightnessMode := 0 } ≠ 0
    ∧ rgb_to_brightness { color := 0xFFFFFF, flashMode := LIGHT_FLASH_NONE, flashOnMS := 0,
                          flashOffMS := 0, brightnessMode := 0 } = 255
    ∧ spec_winner
        (set_light_battery (some d)
          { color := 0x000001, flashMode := LIGHT_FLASH_NONE, flashOnMS := 0,
            flashOffMS := 0, brightnessMode := 0 }
          { g with g_notification :=
              { color := 0xFFFFFF, flashMode := LIGHT_FLASH_NONE, flashOnMS := 0,
                flashOffMS := 0, brightnessMode := 0 } } w).g
        = { color := 0x000001, flashMode := LIGHT_FLASH_NONE, flashOnMS := 0,
            flashOffMS := 0, brightnessMode := 0 }
    ∧ new_writes w
        (set_light_battery (some d)
          { color := 0x000001, flashMode := LIGHT_FLASH_NONE, flashOnMS := 0,
            flashOffMS := 0, brightnessMode := 0 }
          { g with g_notification :=
              { color := 0xFFFFFF, flashMode := LIGHT_FLASH_NONE, flashOnMS := 0,
                flashOffMS := 0, brightnessMode := 0 } } w).sys
        = [{ path := LED_FILE, value := 0, ret := (w.write_result w.clock LED_FILE 0).code }] := by
  have hz : rgb_to_brightness state = 0 ↔ spec_luma state.color < 256 := by
    rw [rgb_to_brightness_eq]
    unfold toBrightness
    constructor
    · intro h
      have h' : spec_luma state.color / 256 = 0 := by exact_mod_cast h
      omega
    · intro h
      have h' : spec_luma state.color / 256 = 0 := by omega
      exact_mod_cast h'
  refine ⟨hz, hz, by decide, by decide, ?_, ?_⟩
  · simp only [set_light_battery, spec_winner]
    rw [if_pos (by decide)]
  · have hs : (set_light_battery (some d)
          { color := 0x000001, flashMode := LIGHT_FLASH_NONE, flashOnMS := 0,
            flashOffMS := 0, brightnessMode := 0 }
          { g with g_notification :=
              { color := 0xFFFFFF, flashMode := LIGHT_FLASH_NONE, flashOnMS := 0,
                flashOffMS := 0, brightnessMode := 0 } } w).sys
        = (set_speaker_light_locked (some d)
            { color := 0x000001, flashMode := LIGHT_FLASH_NONE, flashOnMS := 0,
              flashOffMS := 0, brightnessMode := 0 } w).2 := by
      simp only [set_light_battery, handle_eq_resolver_on_winner, spec_winner]
      rw [if_pos (by decide)]
    rw [hs]
    refine (new_writes_of_log (resolver_log d _ w)).trans ?_
    rw [if_neg (fun hb => absurd hb.1 (by decide))]
    rfl


/-! ## The extended backlight path and the frame of each path -/

/-- C15, as stated, fails: with the configured maximum 255 and colour 0x000100
(level 256, above the maximum) the extended backlight update with a valid handle
sends nothing to the vendor primitive, where the claim has it send the clamped
value `min(256, 255) = 255`. -/
theorem C15_level_above_maximum_is_not_sent :
    spec_ext_level 0x000100 255 = 255
    ∧ (set_light_backlight_ext (some dev0)
          { color := 0x000100, flashMode := 0, flashOnMS := 0, flashOffMS := 0,
            brightnessMode := 0 }
          { Globals.initial with g_brightness_max := 255 } world_ok).sys.ext_levels = []
    ∧ (set_light_backlight_ext (some dev0)
          { color := 0x000100, flashMode := 0, flashOnMS := 0, flashOffMS := 0,
            brightnessMode := 0 }
          { Globals.initial with g_brightness_max := 255 } world_ok).sys.ext_levels
        ≠ world_ok.ext_levels ++ [spec_ext_level 0x000100 255] := by
  refine ⟨by decide, by decide, by decide⟩

/-- C15, amended: an extended-model backlight update with a valid handle sends
the low 24 bits of the colour to the vendor brightness-level primitive when that
value does not exceed the configured maximum, and the value sent is then
`min(color & 0x00FFFFFF, brightnessMax)`; when the value exceeds the maximum
nothing is sent and the world is left as it was. In both cases the update
returns 0 and writes no file. -/
theorem C15_ext_level_sent_only_within_maximum (d : light_device_t) (state : light_state_t)
    (g : Globals) (w : Sysfs) :
    (((state.color &&& 0x00ffffff : Nat) : Int) ≤ g.g_brightness_max →
        (set_light_backlight_ext (some d) state g w).sys.ext_levels
            = w.ext_levels ++ [((state.color &&& 0x00ffffff : Nat) : Int)]
        ∧ ((state.color &&& 0x00ffffff : Nat) : Int)
            = spec_ext_level state.color g.g_brightness_max)
    ∧ (g.g_brightness_max < ((state.color &&& 0x00ffffff : Nat) : Int) →
        (set_light_backlight_ext (some d) state g w).sys = w)
    ∧ (set_light_backlight_ext (some d) state g w).ret = 0
    ∧ (set_light_backlight_ext (some d) state g w).sys.log = w.log := by
  have hnn : (0 : Int) ≤ ((state.color &&& 0x00ffffff : Nat) : Int) := Int.ofNat_nonneg _
  refine ⟨?_, ?_, ?_, ?_⟩
  · intro h
    constructor
    · unfold set_light_backlight_ext
      simp only [Option.isNone_some, Bool.false_eq_true, if_false]
      rw [if_pos ⟨hnn, h⟩]
      rfl
    · unfold spec_ext_level
      rw [← mask24_eq_mod, min_eq_left h]
  · intro h
    unfold set_light_backlight_ext
    simp only [Option.isNone_some, Bool.false_eq_true, if_false]
    rw [if_neg (fun hc => absurd hc.2 (not_le.mpr h))]
  · unfold set_light_backlight_ext
    simp only [Option.isNone_some, Bool.false_eq_true, if_false]
    split_ifs <;> rfl
  · unfold set_light_backlight_ext
    simp only [Option.isNone_some, Bool.false_eq_true, if_false]
    split_ifs <;> rfl

/-- C15 amended, at concrete inputs: with maximum 255, colour 0xFF0000C8 sends
its low 24 bits, 200. -/
theorem C15_ext_level_sent_only_within_maximum_witness :
    (((0xFF0000C8 &&& 0x00ffffff : Nat) : Int) ≤ 255)
    ∧ (set_light_backlight_ext (some dev0)
          { color := 0xFF0000C8, flashMode := 0, flashOnMS := 0, flashOffMS := 0,
            brightnessMode := 0 }
          { Globals.initial with g_brightness_max := 255 } world_ok).sys.ext_levels
        = world_ok.ext_levels ++ [((0xFF0000C8 &&& 0x00ffffff : Nat) : Int)]
    ∧ ((0xFF0000C8 &&& 0x00ffffff : Nat) : Int) = 200 :=
  ⟨by decide,
    ((C15_ext_level_sent_only_within_maximum dev0
      { color := 0xFF0000C8, flashMode := 0, flashOnMS := 0, flashOffMS := 0,
        brightnessMode := 0 }
      { Globals.initial with g_brightness_max := 255 } world_ok).1 (by decide)).1,
    by decide⟩


/-- The resolver writes to the LED level file and the LED blink file only, and
never calls the vendor primitive. -/
theorem resolver_frame (dev : Option light_device_t) (state : light_state_t) (w : Sysfs) :
    (∀ r ∈ new_writes w (set_speaker_light_locked dev state w).2,
        r.path = LED_FILE ∨ r.path = LED_BLINK_FILE)
    ∧ (set_speaker_light_locked dev state w).2.ext_levels = w.ext_levels := by
  cases dev with
  | none =>
    rw [resolver_null]
    simp [new_writes_self]
  | some d =>
    constructor
    · have hw := new_writes_of_log (resolver_log d state w)
      rw [hw]
      intro r hmem
      split_ifs at hmem
      · simp only [List.mem_cons, List.mem_singleton, List.not_mem_nil, or_false] at hmem
        rcases hmem with h | h <;> rw [h] <;> simp
      · rw [List.mem_singleton.1 hmem]; simp
      · rw [List.mem_singleton.1 hmem]; simp
    · unfold set_speaker_light_locked
      simp only [Option.isNone_some, Bool.false_eq_true, if_false]
      split_ifs <;> simp [write_int_ext_levels]

/-- A direct-path backlight update writes to the mode-flag file and the two
backlight level files only, never calls the vendor primitive, and changes no
static other than `g_last_backlight_mode`. -/
theorem backlight_frame (dev : Option light_device_t) (state : light_state_t)
    (g : Globals) (w : Sysfs) :
    (∀ r ∈ new_writes w (set_light_backlight dev state g w).sys,
        r.path = PERSISTENCE_FILE ∨ r.path = LCD_FILE ∨ r.path = LCD_FILE2)
    ∧ (set_light_backlight dev state g w).sys.ext_levels = w.ext_levels
    ∧ (set_light_backlight dev state g w).g.g_battery = g.g_battery
    ∧ (set_light_backlight dev state g w).g.g_notification = g.g_notification
    ∧ (set_light_backlight dev state g w).g.g_attention = g.g_attention
    ∧ (set_light_backlight dev state g w).g.g_brightness_max = g.g_brightness_max := by
  cases dev with
  | none =>
    simp [set_light_backlight, new_writes_self]
  | some d =>
    obtain ⟨hg, h₁, h₂, h₃⟩ := backlight_effect d state g w
    have hl : ∀ b : Bool, lcd_path b = LCD_FILE ∨ lcd_path b = LCD_FILE2 := by
      intro b; cases b <;> simp [lcd_path]
    refine ⟨?_, ?_, by rw [hg], by rw [hg], by rw [hg], by rw [hg]⟩
    · intro r hmem
      by_cases ht : spec_flag_trigger g.g_last_backlight_mode state.brightnessMode
      · by_cases hc : (w.write_result w.clock PERSISTENCE_FILE
            (lp_flag state.brightnessMode)).code = 0
        · rw [new_writes_of_log (h₂ ht hc).1] at hmem
          simp only [List.mem_cons, List.mem_singleton, List.not_mem_nil, or_false] at hmem
          rcases hmem with h | h
          · rw [h]; exact Or.inl rfl
          · rw [h]; exact Or.inr (hl _)
        · rw [new_writes_of_log (h₁ ht hc).1] at hmem
          rw [List.mem_singleton.1 hmem]; exact Or.inl rfl
      · rw [new_writes_of_log (h₃ ht).1] at hmem
        rw [List.mem_singleton.1 hmem]; exact Or.inr (hl _)
    · unfold set_light_backlight
      simp only [Option.isNone_some, Bool.false_eq_true, if_false]
      split_ifs <;> simp [write_int_ext_levels, access]

/-- C17: the backlight path and the arbitrated LED path are independent, for
every handle. A direct-path backlight update leaves the battery slot, the
notification slot and the attention value unchanged, writes only to the
mode-flag file and the two backlight level files, and does not call the vendor
primitive; an extended backlight update leaves every static unchanged and
writes no file (it can only call the vendor primitive). A battery, notification
or attention update leaves `g_last_backlight_mode` unchanged, writes only to
the LED level file and the LED blink file, and does not call the vendor
primitive. -/
theorem C17_backlight_and_led_paths_independent (dev : Option light_device_t)
    (state : light_state_t) (g : Globals) (w : Sysfs) :
    ((set_light_backlight dev state g w).g.g_battery = g.g_battery
      ∧ (set_light_backlight dev state g w).g.g_notification = g.g_notification
      ∧ (set_light_backlight dev state g w).g.g_attention = g.g_attention
      ∧ (∀ r ∈ new_writes w (set_light_backlight dev state g w).sys,
          r.path = PERSISTENCE_FILE ∨ r.path = LCD_FILE ∨ r.path = LCD_FILE2)
      ∧ (set_light_backlight dev state g w).sys.ext_levels = w.ext_levels)
    ∧ ((set_light_backlight_ext dev state g w).g = g
      ∧ new_writes w (set_light_backlight_ext dev state g w).sys = [])
    ∧ ((set_light_battery dev state g w).g.g_last_backlight_mode = g.g_last_backlight_mode
      ∧ (∀ r ∈ new_writes w (set_light_battery dev state g w).sys,
          r.path = LED_FILE ∨ r.path = LED_BLINK_FILE)
      ∧ (set_light_battery dev state g w).sys.ext_levels = w.ext_levels)
    ∧ ((set_light_notifications dev state g w).g.g_last_backlight_mode
          = g.g_last_backlight_mode
      ∧ (∀ r ∈ new_writes w (set_light_notifications dev state g w).sys,
          r.path = LED_FILE ∨ r.path = LED_BLINK_FILE)
      ∧ (set_light_notifications dev state g w).sys.ext_levels = w.ext_levels)
    ∧ ((set_light_attention dev state g w).g.g_last_backlight_mode = g.g_last_backlight_mode
      ∧ (∀ r ∈ new_writes w (set_light_attention dev state g w).sys,
          r.path = LED_FILE ∨ r.path = LED_BLINK_FILE)
      ∧ (set_light_attention dev state g w).sys.ext_levels = w.ext_levels) := by
  obtain ⟨b₁, b₂, b₃, b₄, b₅, -⟩ := backlight_frame dev state g w
  have hbat : (set_light_battery dev state g w).sys
      = (set_speaker_light_locked dev (spec_winner { g with g_battery := state }) w).2 := by
    simp [set_light_battery, handle_eq_resolver_on_winner]
  have hnot : (set_light_notifications dev state g w).sys
      = (set_speaker_light_locked dev
          (spec_winner { g with g_notification := state }) w).2 := by
    simp [set_light_notifications, handle_eq_resolver_on_winner]
  refine ⟨⟨b₃, b₄, b₅, b₁, b₂⟩, ⟨?_, ?_⟩, ⟨rfl, ?_, ?_⟩, ⟨rfl, ?_, ?_⟩, ⟨?_, ?_, ?_⟩⟩
  · unfold set_light_backlight_ext
    simp only []
    split_ifs <;> rfl
  · unfold set_light_backlight_ext
    simp only []
    split_ifs <;> simp [new_writes, set_brightness_ext_level]
  · rw [hbat]; exact (resolver_frame dev _ w).1
  · rw [hbat]; exact (resolver_frame dev _ w).2
  · rw [hnot]; exact (resolver_frame dev _ w).1
  · rw [hnot]; exact (resolver_frame dev _ w).2
  · rw [attention_statics]; split_ifs <;> rfl
  · rw [attention_sys]; exact (resolver_frame dev _ w).1
  · rw [attention_sys]; exact (resolver_frame dev _ w).2

/-- C17 at a concrete input: the blink write of a TIMED battery update goes to
the LED blink file. -/
theorem C17_backlight_and_led_paths_independent_witness :
    ({ path := LED_BLINK_FILE, value := 1, ret := 0 } : write_rec)
        ∈ new_writes world_ok
          (set_light_battery (some dev0)
            { color := 0xFF0000, flashMode := 1, flashOnMS := 500, flashOffMS := 500,
              brightnessMode := 0 } Globals.initial world_ok).sys
    ∧ (LED_BLINK_FILE = LED_FILE ∨ LED_BLINK_FILE = LED_BLINK_FILE) :=
  ⟨by decide,
    (C17_backlight_and_led_paths_independent (some dev0)
      { color := 0xFF0000, flashMode := 1, flashOnMS := 500, flashOffMS := 500,
        brightnessMode := 0 } Globals.initial world_ok).2.2.1.2.1
      { path := LED_BLINK_FILE, value := 1, ret := 0 } (by decide)⟩


/-! ## Re-issuing an update -/

/-- The resolver makes the same writes in two worlds whose write outcomes agree
from the respective clocks on. -/
theorem resolver_writes_congr (d : light_device_t) (state : light_state_t) (w₁ w₂ : Sysfs)
    (hsame : ∀ (k : Nat) (p : String) (v : Int),
      w₂.write_result (w₂.clock + k) p v = w₁.write_result (w₁.clock + k) p v) :
    new_writes w₂ (set_speaker_light_locked (some d) state w₂).2
      = new_writes w₁ (set_speaker_light_locked (some d) state w₁).2 := by
  have h₀ : ∀ (p : String) (v : Int), w₂.write_result w₂.clock p v = w₁.write_result w₁.clock p v :=
    fun p v => hsame 0 p v
  rw [new_writes_of_log (resolver_log d state w₂), new_writes_of_log (resolver_log d state w₁),
    h₀, h₀, hsame 1]

/-- C16, as stated, fails for the direct-path backlight: from the initial
statics, in a world where every write succeeds and the primary backlight file
exists, a LOW_PERSISTENCE request of colour 0xFFFFFF writes 1 to the mode-flag
file and level 0x80; the same request issued again writes only level 255. -/
theorem C16_backlight_second_call_differs :
    new_writes world_ok
        (set_light_backlight (some dev0)
          { color := 0xFFFFFF, flashMode := 0, flashOnMS := 0, flashOffMS := 0,
            brightnessMode := 2 } Globals.initial world_ok).sys
      = [{ path := PERSISTENCE_FILE, value := 1, ret := 0 },
         { path := LCD_FILE, value := 0x80, ret := 0 }]
    ∧ new_writes
        (set_light_backlight (some dev0)
          { color := 0xFFFFFF, flashMode := 0, flashOnMS := 0, flashOffMS := 0,
            brightnessMode := 2 } Globals.initial world_ok).sys
        (set_light_backlight (some dev0)
          { color := 0xFFFFFF, flashMode := 0, flashOnMS := 0, flashOffMS := 0,
            brightnessMode := 2 }
          (set_light_backlight (some dev0)
            { color := 0xFFFFFF, flashMode := 0, flashOnMS := 0, flashOffMS := 0,
              brightnessMode := 2 } Globals.initial world_ok).g
          (set_light_backlight (some dev0)
            { color := 0xFFFFFF, flashMode := 0, flashOnMS := 0, flashOffMS := 0,
              brightnessMode := 2 } Globals.initial world_ok).sys).sys
      = [{ path := LCD_FILE, value := 255, ret := 0 }]
    ∧ new_writes
        (set_light_backlight (some dev0)
          { color := 0xFFFFFF, flashMode := 0, flashOnMS := 0, flashOffMS := 0,
            brightnessMode := 2 } Globals.initial world_ok).sys
        (set_light_backlight (some dev0)
          { color := 0xFFFFFF, flashMode := 0, flashOnMS := 0, flashOffMS := 0,
            brightnessMode := 2 }
          (set_light_backlight (some dev0)
            { color := 0xFFFFFF, flashMode := 0, flashOnMS := 0, flashOffMS := 0,
              brightnessMode := 2 } Globals.initial world_ok).g
          (set_light_backlight (some dev0)
            { color := 0xFFFFFF, flashMode := 0, flashOnMS := 0, flashOffMS := 0,
              brightnessMode := 2 } Globals.initial world_ok).sys).sys
      ≠ new_writes world_ok
        (set_light_backlight (some dev0)
          { color := 0xFFFFFF, flashMode := 0, flashOnMS := 0, flashOffMS := 0,
            brightnessMode := 2 } Globals.initial world_ok).sys := by
  refine ⟨by decide, by decide, by decide⟩

/-- The single write of a direct-path backlight update whose requested mode is
the last mode. -/
theorem backlight_repeat_writes (d : light_device_t) (state : light_state_t) (g : Globals)
    (w : Sysfs) (h : ¬ spec_flag_trigger g.g_last_backlight_mode state.brightnessMode) :
    new_writes w (set_light_backlight (some d) state g w).sys
      = [{ path := lcd_path (w.file_exists w.clock LCD_FILE),
           value := rgb_to_brightness state,
           ret := (w.write_result (w.clock + 1)
             (lcd_path (w.file_exists w.clock LCD_FILE)) (rgb_to_brightness state)).code }] :=
  new_writes_of_log ((backlight_effect d state g w).2.2.2 h).1

/-- C16, amended: let the update with state `s` be issued with a valid handle in
world `w₁`, and issued again, on the statics the first call left, in a world
`w₂` (such as the world the first call left) whose write outcomes and file
existence from its clock on are those the first call met. For the battery, the
notification and the attention indicator the second call makes the same
sequence of file writes, with the same values and results, as the first, and
for the extended backlight the same level is sent to the vendor primitive. For
the direct-path backlight this holds when `lastBacklightMode` and
`s.brightnessMode` are both LOW_PERSISTENCE or both not; in every case the
second direct-path call writes nothing to the mode-flag file, its only write
being level `rgb_to_brightness s` to a backlight level file. -/
theorem C16_reissued_update_repeats_writes (d : light_device_t) (s : light_state_t)
    (g : Globals) (w₁ w₂ : Sysfs)
    (hsame : ∀ (k : Nat) (p : String) (v : Int),
      w₂.write_result (w₂.clock + k) p v = w₁.write_result (w₁.clock + k) p v)
    (hacc : ∀ (k : Nat) (p : String),
      w₂.file_exists (w₂.clock + k) p = w₁.file_exists (w₁.clock + k) p) :
    new_writes w₂ (set_light_battery (some d) s (set_light_battery (some d) s g w₁).g w₂).sys
        = new_writes w₁ (set_light_battery (some d) s g w₁).sys
    ∧ new_writes w₂
          (set_light_notifications (some d) s (set_light_notifications (some d) s g w₁).g w₂).sys
        = new_writes w₁ (set_light_notifications (some d) s g w₁).sys
    ∧ new_writes w₂
          (set_light_attention (some d) s (set_light_attention (some d) s g w₁).g w₂).sys
        = new_writes w₁ (set_light_attention (some d) s g w₁).sys
    ∧ (set_light_backlight_ext (some d) s
          (set_light_backlight_ext (some d) s g w₁).g w₂).sys.ext_levels.drop
            w₂.ext_levels.length
        = (set_light_backlight_ext (some d) s g w₁).sys.ext_levels.drop w₁.ext_levels.length
    ∧ ((g.g_last_backlight_mode = BRIGHTNESS_MODE_LOW_PERSISTENCE
          ↔ s.brightnessMode = BRIGHTNESS_MODE_LOW_PERSISTENCE) →
        new_writes w₂
            (set_light_backlight (some d) s (set_light_backlight (some d) s g w₁).g w₂).sys
          = new_writes w₁ (set_light_backlight (some d) s g w₁).sys)
    ∧ new_writes w₂
          (set_light_backlight (some d) s (set_light_backlight (some d) s g w₁).g w₂).sys
        = [{ path := lcd_path (w₂.file_exists w₂.clock LCD_FILE),
             value := rgb_to_brightness s,
             ret := (w₂.write_result (w₂.clock + 1)
               (lcd_path (w₂.file_exists w₂.clock LCD_FILE)) (rgb_to_brightness s)).code }]
    ∧ values_to PERSISTENCE_FILE
        (new_writes w₂
          (set_light_backlight (some d) s (set_light_backlight (some d) s g w₁).g w₂).sys)
        = [] := by
  have hself : ∀ m : Int, ¬ spec_flag_trigger m m := by
    intro m
    rw [spec_flag_trigger_iff]
    rintro (⟨h₁, h₂⟩ | ⟨h₁, h₂⟩)
    · exact h₂ h₁
    · exact h₁ h₂
  have hg : (set_light_backlight (some d) s g w₁).g.g_last_backlight_mode = s.brightnessMode := by
    rw [(backlight_effect d s g w₁).1]
  have hsecond : ¬ spec_flag_trigger
      (set_light_backlight (some d) s g w₁).g.g_last_backlight_mode s.brightnessMode := by
    rw [hg]; exact hself _
  have h2 := backlight_repeat_writes d s (set_light_backlight (some d) s g w₁).g w₂ hsecond
  have hext : ∀ (g₀ : Globals) (w : Sysfs),
      (set_light_backlight_ext (some d) s g₀ w).g = g₀
      ∧ (set_light_backlight_ext (some d) s g₀ w).sys.ext_levels.drop w.ext_levels.length
          = if ((s.color &&& 0x00ffffff : Nat) : Int) ≥ 0 ∧
                ((s.color &&& 0x00ffffff : Nat) : Int) ≤ g₀.g_brightness_max
            then [((s.color &&& 0x00ffffff : Nat) : Int)] else [] := by
    intro g₀ w
    unfold set_light_backlight_ext
    simp only [Option.isNone_some, Bool.false_eq_true, if_false]
    split_ifs <;> simp [set_brightness_ext_level]
  refine ⟨?_, ?_, ?_, ?_, ?_, h2, ?_⟩
  · simp only [set_light_battery, handle_eq_resolver_on_winner]
    exact resolver_writes_congr d _ w₁ w₂ hsame
  · simp only [set_light_notifications, handle_eq_resolver_on_winner]
    exact resolver_writes_congr d _ w₁ w₂ hsame
  · rw [attention_sys, attention_sys]
    have hw : spec_winner (set_light_attention (some d) s g w₁).g = spec_winner g := by
      rw [attention_statics]
      split_ifs <;> rfl
    rw [hw]
    exact resolver_writes_congr d _ w₁ w₂ hsame
  · rw [(hext _ w₂).2, (hext g w₁).2, (hext g w₁).1]
  · intro hiff
    have hfirst : ¬ spec_flag_trigger g.g_last_backlight_mode s.brightnessMode := by
      rw [spec_flag_trigger_iff]
      rintro (⟨h₁, h₂⟩ | ⟨h₁, h₂⟩)
      · exact h₂ (hiff.1 h₁)
      · exact h₁ (hiff.2 h₂)
    have h₀ : w₂.file_exists w₂.clock LCD_FILE = w₁.file_exists w₁.clock LCD_FILE :=
      hacc 0 LCD_FILE
    rw [h2, backlight_repeat_writes d s g w₁ hfirst, h₀, hsame 1]
  · rw [h2]
    simp [values_to, lcd_path_ne_persistence]

/-- C16 amended, at a concrete input: in a world where every write fails with
EACCES, a TIMED battery update issued twice in a row (the second call in the
world the first call left) makes the same two writes both times: 1 to the blink
file, then level 0 to the LED level file. -/
theorem C16_reissued_update_repeats_writes_witness :
    (∀ (k : Nat) (p : String) (v : Int),
      (set_light_battery (some dev0)
          { color := 0xFF0000, flashMode := 1, flashOnMS := 500, flashOffMS := 500,
            brightnessMode := 0 } Globals.initial world_eacces).sys.write_result
        ((set_light_battery (some dev0)
          { color := 0xFF0000, flashMode := 1, flashOnMS := 500, flashOffMS := 500,
            brightnessMode := 0 } Globals.initial world_eacces).sys.clock + k) p v
        = world_eacces.write_result (world_eacces.clock + k) p v)
    ∧ new_writes
        (set_light_battery (some dev0)
          { color := 0xFF0000, flashMode := 1, flashOnMS := 500, flashOffMS := 500,
            brightnessMode := 0 } Globals.initial world_eacces).sys
        (set_light_battery (some dev0)
          { color := 0xFF0000, flashMode := 1, flashOnMS := 500, flashOffMS := 500,
            brightnessMode := 0 }
          (set_light_battery (some dev0)
            { color := 0xFF0000, flashMode := 1, flashOnMS := 500, flashOffMS := 500,
              brightnessMode := 0 } Globals.initial world_eacces).g
          (set_light_battery (some dev0)
            { color := 0xFF0000, flashMode := 1, flashOnMS := 500, flashOffMS := 500,
              brightnessMode := 0 } Globals.initial world_eacces).sys).sys
      = new_writes world_eacces
        (set_light_battery (some dev0)
          { color := 0xFF0000, flashMode := 1, flashOnMS := 500, flashOffMS := 500,
            brightnessMode := 0 } Globals.initial world_eacces).sys
    ∧ new_writes world_eacces
        (set_light_battery (some dev0)
          { color := 0xFF0000, flashMode := 1, flashOnMS := 500, flashOffMS := 500,
            brightnessMode := 0 } Globals.initial world_eacces).sys
      = [{ path := LED_BLINK_FILE, value := 1, ret := -13 },
         { path := LED_FILE, value := 0, ret := -13 }] :=
  ⟨fun _ _ _ => rfl,
    (C16_reissued_update_repeats_writes dev0
      { color := 0xFF0000, flashMode := 1, flashOnMS := 500, flashOffMS := 500,
        brightnessMode := 0 } Globals.initial world_eacces
      (set_light_battery (some dev0)
        { color := 0xFF0000, flashMode := 1, flashOnMS := 500, flashOffMS := 500,
          brightnessMode := 0 } Globals.initial world_eacces).sys
      (fun _ _ _ => rfl) (fun _ _ => rfl)).1,
    by decide⟩

end Lights
